import Mathlib

/-!
Shallow embedding of `rekall/plugins/tools/repository_manager.py`.

The repository store is modelled as an association list of paths to
entries carrying a payload and a `LastModified` timestamp, together with
a strictly increasing clock: every `StoreData` call stamps the entry with
the current clock and advances it.  External collaborators (the pdb
fetcher, the pdb parser, the index builder and the Linux profile
converter, all invoked through Rekall plugins in the source) are modelled
as an explicit `World` of deterministic functions.  Each `Build` method
is embedded as a function from a configuration, a world and a repository
to a trace (`BOut`) recording the final repository, the `GetData` reads,
the `StoreData` writes (path and payload, in order), the fetcher and
converter invocations, whether `BuildIndex` was invoked, the internal
`changed_files` flag, the first uncaught exception if any, and the Python
return value of the method (no `Build` method has a return statement, so
it is always `None`, i.e. `none`).
-/

/-- JSON/YAML-like values stored in the repository and used for manifest
fields and transform arguments. -/
inductive Val where
  | str : String → Val
  | num : Int → Val
  | list : List Val → Val
  | obj : List (String × Val) → Val

/-- Association-list lookup on string keys (Python dict read). -/
def lookupKey {α : Type} : List (String × α) → String → Option α
  | [], _ => none
  | (k, v) :: rest, key => if k = key then some v else lookupKey rest key

/-- Association-list update: Python dict item assignment.  An existing
key is overwritten in place, a new key is appended at the end (insertion
order semantics of Python dicts). -/
def setKey {α : Type} : List (String × α) → String → α → List (String × α)
  | [], key, v => [(key, v)]
  | (k, w) :: rest, key, v =>
      if k = key then (key, v) :: rest else (k, w) :: setKey rest key v

/-- One stored document: payload plus the `LastModified` metadata. -/
structure Entry where
  payload : Val
  lastModified : Nat

/-- The repository: an ordered key/value store with a clock.  The clock
models the current time; every write stamps the new entry with it and
advances it, so later writes carry strictly larger timestamps. -/
structure Repo where
  entries : List (String × Entry)
  clock : Nat

/-- `Metadata(path)`: the `LastModified` timestamp, or `none` if the
path is absent. -/
def Repo.metadata (r : Repo) (p : String) : Option Nat :=
  (lookupKey r.entries p).map Entry.lastModified

/-- `GetData(path)`: the stored payload, or `none` (a `NotFound` error
in the source) if absent. -/
def Repo.getData (r : Repo) (p : String) : Option Val :=
  (lookupKey r.entries p).map Entry.payload

/-- `StoreData(path, data)`: overwrite or create the entry, stamping it
with the current clock, and advance the clock. -/
def Repo.storeData (r : Repo) (p : String) (v : Val) : Repo :=
  { entries := setKey r.entries p ⟨v, r.clock⟩, clock := r.clock + 1 }

/-- `ListFiles()`: the stored paths, in store order. -/
def Repo.listFiles (r : Repo) : List String :=
  r.entries.map Prod.fst

/-- Well-formedness: every stored timestamp lies in the past (strictly
below the clock).  `storeData` preserves this. -/
def Repo.WF (r : Repo) : Prop :=
  ∀ pr ∈ r.entries, pr.2.lastModified < r.clock

theorem lookupKey_setKey_self {α : Type} (l : List (String × α)) (k : String) (v : α) :
    lookupKey (setKey l k v) k = some v := by
  induction l with
  | nil => simp [setKey, lookupKey]
  | cons hd tl ih =>
      obtain ⟨k', v'⟩ := hd
      by_cases h : k' = k
      · simp [setKey, h, lookupKey]
      · simp [setKey, h, lookupKey, ih]

theorem lookupKey_setKey_ne {α : Type} (l : List (String × α)) (k q : String) (v : α)
    (h : q ≠ k) : lookupKey (setKey l k v) q = lookupKey l q := by
  induction l with
  | nil =>
      simp only [setKey, lookupKey, if_neg (Ne.symm h)]
  | cons hd tl ih =>
      obtain ⟨k', v'⟩ := hd
      by_cases hk : k' = k
      · subst hk
        simp only [setKey, if_pos rfl, lookupKey, if_neg (Ne.symm h)]
      · simp only [setKey, if_neg hk, lookupKey, ih]

theorem mem_setKey {α : Type} (l : List (String × α)) (k : String) (v : α)
    (pr : String × α) (h : pr ∈ setKey l k v) : pr ∈ l ∨ pr = (k, v) := by
  induction l with
  | nil =>
      right
      simpa [setKey] using h
  | cons hd tl ih =>
      obtain ⟨k', v'⟩ := hd
      by_cases hk : k' = k
      · simp only [setKey] at h
        rw [if_pos hk] at h
        rcases List.mem_cons.mp h with h1 | h1
        · right; exact h1
        · left; exact List.mem_cons_of_mem _ h1
      · simp only [setKey] at h
        rw [if_neg hk] at h
        rcases List.mem_cons.mp h with h1 | h1
        · left; exact h1 ▸ List.mem_cons_self _ _
        · rcases ih h1 with h2 | h2
          · left; exact List.mem_cons_of_mem _ h2
          · right; exact h2

theorem metadata_storeData (r : Repo) (p q : String) (v : Val) :
    (r.storeData p v).metadata q = if q = p then some r.clock else r.metadata q := by
  by_cases h : q = p
  · simp [Repo.storeData, Repo.metadata, h, lookupKey_setKey_self]
  · simp [Repo.storeData, Repo.metadata, h, lookupKey_setKey_ne _ _ _ _ h]

theorem getData_storeData (r : Repo) (p q : String) (v : Val) :
    (r.storeData p v).getData q = if q = p then some v else r.getData q := by
  by_cases h : q = p
  · simp [Repo.storeData, Repo.getData, h, lookupKey_setKey_self]
  · simp [Repo.storeData, Repo.getData, h, lookupKey_setKey_ne _ _ _ _ h]

theorem metadata_isSome_storeData (r : Repo) (p q : String) (v : Val)
    (h : (r.metadata q).isSome) : ((r.storeData p v).metadata q).isSome := by
  rw [metadata_storeData]
  by_cases hq : q = p <;> simp [hq, h]

theorem mem_listFiles_storeData (r : Repo) (p : String) (v : Val) (q : String)
    (h : q ∈ (r.storeData p v).listFiles) : q ∈ r.listFiles ∨ q = p := by
  simp only [Repo.listFiles, Repo.storeData, List.mem_map] at h
  obtain ⟨pr, hpr, hq⟩ := h
  rcases mem_setKey _ _ _ _ hpr with h' | h'
  · left
    exact List.mem_map.mpr ⟨pr, h', hq⟩
  · right
    rw [h'] at hq
    exact hq.symm

theorem WF_storeData (r : Repo) (p : String) (v : Val) (h : r.WF) :
    (r.storeData p v).WF := by
  intro pr hmem
  rcases mem_setKey _ _ _ _ hmem with h' | h'
  · exact Nat.lt_succ_of_lt (h pr h')
  · rw [h']
    exact Nat.lt_succ_self _

/-- Metadata presence and data presence coincide (both read the same
entry). -/
theorem metadata_isSome_iff_getData (r : Repo) (p : String) :
    (r.metadata p).isSome ↔ (r.getData p).isSome := by
  simp [Repo.metadata, Repo.getData]

/-! ## String helpers mirroring the Python string methods used -/

/-- Python `str.lstrip(chars)`: drop leading characters drawn from the
character set of `chars` (not the literal prefix). -/
def pyLstrip (cs : List Char) (s : String) : String :=
  ⟨s.data.dropWhile (fun c => c ∈ cs)⟩

/-- Python `str.rstrip(chars)`: drop trailing characters drawn from the
character set of `chars`. -/
def pyRstrip (cs : List Char) (s : String) : String :=
  ⟨(s.data.reverse.dropWhile (fun c => c ∈ cs)).reverse⟩

/-- Python `str.capitalize()`. -/
def pyCapitalize (s : String) : String :=
  match s.data with
  | [] => ""
  | c :: rest => ⟨c.toUpper :: rest.map Char.toLower⟩

/-- Boolean prefix test on character lists (used for Python
`str.startswith` / `str.endswith`). -/
def hasPre : List Char → List Char → Bool
  | [], _ => true
  | _ :: _, [] => false
  | a :: as, b :: bs => a = b && hasPre as bs

/-- Python `s.startswith(pre)`. -/
def strStarts (pre s : String) : Bool := hasPre pre.data s.data

/-- Python `s.endswith(suf)`. -/
def strEnds (suf s : String) : Bool := hasPre suf.data.reverse s.data.reverse

/-- Python `str.split(sep)` for a one-character separator, on the
character list (no collapsing of empty segments; the result is never
empty). -/
def splitOnChar (c : Char) : List Char → List (List Char)
  | [] => [[]]
  | a :: rest =>
      match splitOnChar c rest with
      | [] => [[a]]
      | seg :: segs =>
          if a = c then [] :: seg :: segs else (a :: seg) :: segs

/-- Python `source.split("/")[-1]`: the last `/`-separated segment. -/
def lastSegment (s : String) : String :=
  ⟨(splitOnChar '/' s.data).getLastD []⟩

/-! ## Transform layer (`RepositoryPlugin.TransformProfile`) -/

mutual

/-- A deterministic serialisation standing in for `utils.PPrint`: the
builders `CopyAndTransform` and `OSXProfile` store the pretty-printed
text of the document rather than the document itself.  Its content is
irrelevant to every claim; only that it is a function of the document
matters. -/
def encodeVal : Val → String
  | .str s => "s:" ++ s
  | .num n => "n:" ++ toString n
  | .list l => "[" ++ encodeList l ++ "]"
  | .obj l => "\x7b" ++ encodeObj l ++ "\x7d"

def encodeList : List Val → String
  | [] => ""
  | v :: rest => encodeVal v ++ "," ++ encodeList rest

def encodeObj : List (String × Val) → String
  | [] => ""
  | (k, v) :: rest => k ++ ":" ++ encodeVal v ++ "," ++ encodeObj rest

end

/-- `utils.PPrint(data)` as used by the builders: produces the stored
(raw) text document. -/
def PPrint (v : Val) : Val := .str (encodeVal v)

/-- `RepositoryPlugin.TransformProfile`, iterating `transforms.items()`:
a `merge` entry performs `profile["$MERGE"] = args`; any other name
raises `RuntimeError("Unknown transform %s" % transform)`.  A non-dict
profile hit by a `merge` assignment raises a `TypeError` (Python item
assignment on a non-dict). -/
def TransformProfile : List (String × Val) → Val → Except String Val
  | [], profile => .ok profile
  | (name, args) :: rest, profile =>
      if name = "merge" then
        match profile with
        | .obj fields => TransformProfile rest (.obj (setKey fields "$MERGE" args))
        | _ => .error "TypeError: item assignment on non-dict profile"
      else .error ("Unknown transform " ++ name)

/-! ## External collaborators and the build trace -/

/-- The external collaborators, as deterministic functions: the
`fetch_pdb` plugin (symbol-server fetch, by pdb filename and guid), the
`parse_pdb` plugin (by profile class and raw pdb data), the
`build_index` plugin (on the index spec document) and
`convert_profile.ConvertProfile` (on the raw Linux archive content,
which may fail to produce a profile). -/
structure World where
  fetch_pdb : String → String → Val
  parse_pdb : String → Val → Val
  build_index : Val → Val
  convert_profile : Val → Option Val

/-- The observable trace of one `Build()` invocation: the final
repository, the paths read via `GetData` (in order), the `StoreData`
calls (path and payload, in order), the guids fetched via the
`fetch_pdb` plugin, the artifacts handed to the converter, whether
`BuildIndex` was invoked, the value of the builder's internal
`changed_files` flag (for `CopyAndTransform`, which has no such
variable, it records whether the rebuild branch stored), the first
uncaught exception if any, and the Python return value of the method.
No `Build` method in the source has a return statement, so `ret` is
always `none` (Python `None`). -/
structure BOut where
  repo : Repo
  reads : List String
  writes : List (String × Val)
  fetches : List String
  converts : List String
  indexed : Bool
  changed : Bool
  err : Option String
  ret : Option Bool

/-- The trace at the start of a `Build()` call. -/
def BOut.start (r : Repo) : BOut :=
  ⟨r, [], [], [], [], false, false, none, none⟩

/-- Record a `GetData` read. -/
def BOut.read (s : BOut) (p : String) : BOut :=
  { s with reads := s.reads ++ [p] }

/-- Perform and record a `StoreData` write. -/
def BOut.write (s : BOut) (p : String) (v : Val) : BOut :=
  { s with repo := s.repo.storeData p v, writes := s.writes ++ [(p, v)] }

/-- Record an uncaught exception. -/
def BOut.fail (s : BOut) (e : String) : BOut :=
  { s with err := some e }

/-- `RepositoryPlugin.BuildIndex`: read the index spec with `GetData`,
run the external `build_index` plugin on it, and store the result at
`<profile_name>/index`.  `indexed` records that `BuildIndex` was
invoked; an absent spec path (Python `GetData(None)`) or a missing spec
document raises. -/
def BuildIndex (pn : String) (index : Option String) (w : World) (s : BOut) : BOut :=
  match index with
  | none => { s with indexed := true, err := some "IOError: GetData(None)" }
  | some ip =>
      match s.repo.getData ip with
      | none =>
          { s with indexed := true, reads := s.reads ++ [ip],
                   err := some ("NotFound: " ++ ip) }
      | some spec =>
          { s with indexed := true, reads := s.reads ++ [ip],
                   repo := s.repo.storeData (pn ++ "/index") (w.build_index spec),
                   writes := s.writes ++ [(pn ++ "/index", w.build_index spec)] }

/-- The index trigger shared by `WindowsGUIDProfile.Build` and
`LinuxProfile.Build`:
`if changed_files and self.args.index or self.args.force_build_index`,
i.e. `(changed_files ∧ index configured) ∨ force_build_index` by Python
precedence.  Skipped when the loop already raised. -/
def indexTriggerAD (pn : String) (index : Option String) (force : Bool)
    (w : World) (s : BOut) : BOut :=
  if s.err.isSome then s
  else if (s.changed && index.isSome) || force then BuildIndex pn index w s
  else s

/-- The index trigger of `OSXProfile.Build`:
`if changed_files and self.args.index` — the force flag is not
consulted. -/
def indexTriggerC (pn : String) (index : Option String)
    (w : World) (s : BOut) : BOut :=
  if s.err.isSome then s
  else if s.changed && index.isSome then BuildIndex pn index w s
  else s

/-- Sequential loop over a list of work items, threading the build
trace (the shape of every builder loop in the source). -/
def foldSteps {α : Type} (f : α → BOut → BOut) : List α → BOut → BOut
  | [], s => s
  | x :: xs, s => foldSteps f xs (f x s)

/-! ## The four builder variants -/

/-- Decode a string value (guid file entries are lists of guid
strings). -/
def asStr : Val → Option String
  | .str s => some s
  | _ => none

/-- Decode one guid list from the guid file. -/
def decodeGuidList : Val → Option (List String)
  | .list gs => gs.mapM asStr
  | _ => none

/-- Decode the guid file: a mapping `pdb filename → [guids]`, iterated
in order by `guid_file.iteritems()`. -/
def decodeGuidFile : Val → Option (List (String × List String))
  | .obj fields =>
      fields.mapM (fun pr => (decodeGuidList pr.2).map (fun gs => (pr.1, gs)))
  | _ => none

/-- Constructor arguments of `WindowsGUIDProfile` (Variant A). -/
structure WindowsGUIDProfileArgs where
  profile_name : String
  guids : String
  profile_class : Option String
  transforms : List (String × Val)
  index : Option String
  force_build_index : Bool

namespace WindowsGUIDProfile

/-- `WindowsGUIDProfile.FetchPDB`: run the `fetch_pdb` plugin and store
the raw artifact at `src/pdb/<guid>.pdb`. -/
def FetchPDB (w : World) (guid pdb_filename : String) (s : BOut) : BOut :=
  ({ s with fetches := s.fetches ++ [guid] }).write
    ("src/pdb/" ++ guid ++ ".pdb") (w.fetch_pdb pdb_filename guid)

/-- `WindowsGUIDProfile.ParsePDB`: read the raw artifact, run the
`parse_pdb` plugin (profile class defaulting to the capitalized pdb
filename), apply `TransformProfile`, and store the profile at
`<profile_name>/<guid>`. -/
def ParsePDB (cfg : WindowsGUIDProfileArgs) (w : World)
    (guid pdb_filename : String) (s : BOut) : BOut :=
  match s.repo.getData ("src/pdb/" ++ guid ++ ".pdb") with
  | none =>
      (s.read ("src/pdb/" ++ guid ++ ".pdb")).fail
        ("NotFound: src/pdb/" ++ guid ++ ".pdb")
  | some data =>
      match TransformProfile cfg.transforms
          (w.parse_pdb (cfg.profile_class.getD (pyCapitalize pdb_filename)) data) with
      | .error e =>
          { s.read ("src/pdb/" ++ guid ++ ".pdb") with
              converts := s.converts ++ [guid], err := some e }
      | .ok pd =>
          { (s.read ("src/pdb/" ++ guid ++ ".pdb")).write
              (cfg.profile_name ++ "/" ++ guid) pd with
              converts := s.converts ++ [guid] }

/-- The body of the per-guid loop of `WindowsGUIDProfile.Build`: skip if
`<profile_name>/<guid>` exists, otherwise set `changed_files`, fetch the
pdb only if the raw artifact is absent, then parse it. -/
def step (cfg : WindowsGUIDProfileArgs) (w : World)
    (pdb_filename guid : String) (s : BOut) : BOut :=
  if s.err.isSome then s
  else if (s.repo.metadata (cfg.profile_name ++ "/" ++ guid)).isSome then s
  else
    ParsePDB cfg w guid pdb_filename
      (if (s.repo.metadata ("src/pdb/" ++ guid ++ ".pdb")).isSome then
        { s with changed := true }
       else FetchPDB w guid pdb_filename { s with changed := true })

/-- Inner loop over the guids of one pdb filename. -/
def guidLoop (cfg : WindowsGUIDProfileArgs) (w : World) (pdb_filename : String)
    (gs : List String) (s : BOut) : BOut :=
  foldSteps (step cfg w pdb_filename) gs s

/-- Outer loop over `guid_file.iteritems()`. -/
def pairLoop (cfg : WindowsGUIDProfileArgs) (w : World)
    (gf : List (String × List String)) (s : BOut) : BOut :=
  foldSteps (fun pr s => guidLoop cfg w pr.1 pr.2 s) gf s

/-- `WindowsGUIDProfile.Build` up to (excluding) the index trigger:
read and decode the guid file, then run the two nested loops. -/
def loop (cfg : WindowsGUIDProfileArgs) (w : World) (r : Repo) : BOut :=
  let s := (BOut.start r).read cfg.guids
  match r.getData cfg.guids with
  | none => s.fail ("NotFound: " ++ cfg.guids)
  | some v =>
      match decodeGuidFile v with
      | none => s.fail "TypeError: malformed guid file"
      | some gf => pairLoop cfg w gf s

/-- `WindowsGUIDProfile.Build` (Variant A). -/
def Build (cfg : WindowsGUIDProfileArgs) (w : World) (r : Repo) : BOut :=
  indexTriggerAD cfg.profile_name cfg.index cfg.force_build_index w (loop cfg w r)

end WindowsGUIDProfile

/-- Constructor arguments of `CopyAndTransform` (Variant B). -/
structure CopyAndTransformArgs where
  profile_name : String
  source : String
  transforms : List (String × Val)

namespace CopyAndTransform

/-- `CopyAndTransform.Build` (Variant B): rebuild iff the target's
metadata is absent or the source's `LastModified` is strictly greater;
on rebuild, `GetData(source)`, `TransformProfile`, then
`StoreData(profile_name, PPrint(data), raw=True)`.  When the target
exists but the source is absent, the source reads
`source_metadata["LastModified"]` on `None` and raises. -/
def Build (cfg : CopyAndTransformArgs) (r : Repo) : BOut :=
  let s := BOut.start r
  let go : BOut :=
    let s1 := s.read cfg.source
    match r.getData cfg.source with
    | none => s1.fail ("NotFound: " ++ cfg.source)
    | some data =>
        match TransformProfile cfg.transforms data with
        | .error e => s1.fail e
        | .ok d2 => { s1.write cfg.profile_name (PPrint d2) with changed := true }
  match r.metadata cfg.profile_name with
  | none => go
  | some pt =>
      match r.metadata cfg.source with
      | none => s.fail "TypeError: NoneType source metadata"
      | some st => if pt < st then go else s

end CopyAndTransform

/-- Constructor arguments of `OSXProfile` (Variant C). -/
structure OSXProfileArgs where
  profile_name : String
  sources : List String
  transforms : List (String × Val)
  index : Option String
  force_build_index : Bool

namespace OSXProfile

/-- The body of the per-source loop of `OSXProfile.Build`: the target
name is `OSX/<last path segment of source>`; rebuild only if it is
absent (existence-only staleness). -/
def step (cfg : OSXProfileArgs) (src : String) (s : BOut) : BOut :=
  if s.err.isSome then s
  else if (s.repo.metadata ("OSX/" ++ lastSegment src)).isSome then s
  else
    match s.repo.getData src with
    | none => (s.read src).fail ("NotFound: " ++ src)
    | some data =>
        match TransformProfile cfg.transforms data with
        | .error e => (s.read src).fail e
        | .ok d2 =>
            { (s.read src).write ("OSX/" ++ lastSegment src) (PPrint d2) with
                changed := true }

/-- The loop of `OSXProfile.Build` over `self.args.sources`. -/
def loop (cfg : OSXProfileArgs) (srcs : List String) (s : BOut) : BOut :=
  foldSteps (step cfg) srcs s

/-- `OSXProfile.Build` (Variant C). -/
def Build (cfg : OSXProfileArgs) (w : World) (r : Repo) : BOut :=
  indexTriggerC cfg.profile_name cfg.index w (loop cfg cfg.sources (BOut.start r))

end OSXProfile

/-- The character set of Python `lstrip("src/")`. -/
def srcChars : List Char := ['s', 'r', 'c', '/']

/-- The character set of Python `rstrip(".zip")`. -/
def zipChars : List Char := ['.', 'z', 'i', 'p']

/-- Constructor arguments of `LinuxProfile` (Variant D). -/
structure LinuxProfileArgs where
  profile_name : String
  index : Option String
  force_build_index : Bool

namespace LinuxProfile

/-- The scan filter of `LinuxProfile.Build`:
`source_profile.startswith("src/Linux") and source_profile.endswith(".zip")`. -/
def matchesRaw (p : String) : Bool :=
  strStarts "src/Linux" p && strEnds ".zip" p

/-- The id derivation of `LinuxProfile.Build`:
`source_profile.lstrip("src/").rstrip(".zip")` — character-set
stripping, not literal prefix/suffix removal. -/
def deriveId (p : String) : String :=
  pyRstrip zipChars (pyLstrip srcChars p)

/-- The body of the scan loop of `LinuxProfile.Build`.  A matching raw
archive whose derived id is absent is converted; when the converter
returns no profile, the source's logging call references the undefined
name `profile_path` and therefore raises a `NameError`, aborting the
build. -/
def step (w : World) (f : String) (s : BOut) : BOut :=
  if s.err.isSome then s
  else if matchesRaw f then
    if (s.repo.metadata (deriveId f)).isSome then s
    else
      match s.repo.getData f with
      | none => s.fail ("IOError: " ++ f)
      | some content =>
          match w.convert_profile content with
          | none =>
              { s with converts := s.converts ++ [f],
                       err := some "NameError: name profile_path is not defined" }
          | some profile =>
              { ({ s with converts := s.converts ++ [f] }).write (deriveId f) profile with
                  changed := true }
  else s

/-- The scan over the repository listing. -/
def scan (w : World) (fs : List String) (s : BOut) : BOut :=
  foldSteps (step w) fs s

/-- `LinuxProfile.Build` up to (excluding) the index trigger. -/
def loop (w : World) (r : Repo) : BOut :=
  scan w r.listFiles (BOut.start r)

/-- `LinuxProfile.Build` (Variant D). -/
def Build (cfg : LinuxProfileArgs) (w : World) (r : Repo) : BOut :=
  indexTriggerAD cfg.profile_name cfg.index cfg.force_build_index w (loop w r)

end LinuxProfile

/-! ## The orchestrator (`ManageRepository.render`) -/

/-- Python truthiness of a manifest field value. -/
def truthy : Val → Bool
  | .str s => decide (s ≠ "")
  | .num n => decide (n ≠ 0)
  | .list l => !l.isEmpty
  | .obj l => !l.isEmpty

namespace ManageRepository

/-- `ManageRepository.render`: iterate the manifest in order; skip
targets excluded by a non-empty `build_targets` selection; pop the
`type` field (missing or falsy raises `Unspecified repository handler`);
resolve it in the registry (`RepositoryPlugin.classes.get`, which yields
nothing for an unregistered name or a non-string key, raising
`Unknown repository handler`); otherwise construct the handler and run
its `Build`.  The result is the list of `(profile_name, type)` pairs
whose builders were constructed and run, in order, together with the
first uncaught error, which aborts the remaining targets. -/
def render (reg : List String) (build_targets : List String) :
    List (String × List (String × Val)) → List (String × String) × Option String
  | [] => ([], none)
  | (pname, kwargs) :: rest =>
      if build_targets ≠ [] ∧ pname ∉ build_targets then
        render reg build_targets rest
      else
        match lookupKey kwargs "type" with
        | none => ([], some ("Unspecified repository handler for profile " ++ pname))
        | some tv =>
            if truthy tv = false then
              ([], some ("Unspecified repository handler for profile " ++ pname))
            else
              match tv with
              | .str tn =>
                  if tn ∈ reg then
                    ((pname, tn) :: (render reg build_targets rest).1,
                     (render reg build_targets rest).2)
                  else ([], some ("Unknown repository handler " ++ tn))
              | _ => ([], some ("Unknown repository handler " ++ encodeVal tv))

end ManageRepository

/-- The builder types registered by the metaclass registry of
`RepositoryPlugin` (its concrete subclasses in the source file). -/
def registeredBuilders : List String :=
  ["WindowsGUIDProfile", "CopyAndTransform", "OSXProfile", "LinuxProfile"]

/-! ## Lemmas about the character-set stripping -/

/-- The result of `pyLstrip` is empty or starts with a character outside
the stripped set. -/
theorem pyLstrip_head (cs : List Char) (s : String) :
    (pyLstrip cs s).data = [] ∨
      ∃ c tl, (pyLstrip cs s).data = c :: tl ∧ c ∉ cs := by
  unfold pyLstrip
  induction s.data with
  | nil => left; rfl
  | cons a l ih =>
      rw [List.dropWhile_cons]
      by_cases h : a ∈ cs
      · rw [if_pos (by simpa using h)]
        exact ih
      · rw [if_neg (by simpa using h)]
        exact Or.inr ⟨a, l, rfl, h⟩

/-- The result of `pyRstrip` is a prefix of its argument: empty, or with
the same first character. -/
theorem pyRstrip_head (cs : List Char) (s : String) :
    (pyRstrip cs s).data = [] ∨
      ∃ c tl tl', (pyRstrip cs s).data = c :: tl ∧ s.data = c :: tl' := by
  unfold pyRstrip
  obtain ⟨u, hu⟩ := List.dropWhile_suffix (l := s.data.reverse)
    (p := fun c => decide (c ∈ cs))
  cases hd : (s.data.reverse.dropWhile (fun c => decide (c ∈ cs))).reverse with
  | nil => left; rfl
  | cons c tl =>
      right
      refine ⟨c, tl, ?_⟩
      have hs : s.data = c :: tl ++ u.reverse := by
        have h1 : s.data.reverse = u ++ s.data.reverse.dropWhile (fun c => decide (c ∈ cs)) := hu.symm
        have h2 : s.data = (s.data.reverse.dropWhile (fun c => decide (c ∈ cs))).reverse ++ u.reverse := by
          calc s.data = s.data.reverse.reverse := (List.reverse_reverse _).symm
            _ = (u ++ s.data.reverse.dropWhile (fun c => decide (c ∈ cs))).reverse := by rw [← h1]
            _ = (s.data.reverse.dropWhile (fun c => decide (c ∈ cs))).reverse ++ u.reverse := by
                rw [List.reverse_append]
        rw [hd] at h2
        simpa using h2
      exact ⟨tl ++ u.reverse, rfl, hs⟩

/-- A derived Linux profile id never matches the raw-archive scan
pattern: character-set stripping removes every leading character in
`{s, r, c, /}`, so the id cannot start with `"src/Linux"`. -/
theorem matchesRaw_deriveId_false (p : String) :
    LinuxProfile.matchesRaw (LinuxProfile.deriveId p) = false := by
  unfold LinuxProfile.matchesRaw LinuxProfile.deriveId
  have hstart : strStarts "src/Linux" (pyRstrip zipChars (pyLstrip srcChars p)) = false := by
    unfold strStarts
    rcases pyRstrip_head zipChars (pyLstrip srcChars p) with h | ⟨c, tl, tl', h1, h2⟩
    · rw [h]; rfl
    · rcases pyLstrip_head srcChars p with h3 | ⟨c', tl2, h3, h4⟩
      · rw [h3] at h2; cases h2
      · have h23 : c :: tl' = c' :: tl2 := h2.symm.trans h3
        have hc : c = c' := by injection h23
        have hs : c ≠ 's' := by
          intro he
          exact h4 (by rw [← hc, he]; decide)
        rw [h1]
        show hasPre ('s' :: "rc/Linux".data) (c :: tl) = false
        unfold hasPre
        rw [decide_eq_false (Ne.symm hs), Bool.false_and]
  rw [hstart]
  rfl

/-- The index artifact path never matches the raw-archive scan pattern
(it does not end in `.zip`). -/
theorem matchesRaw_index_false (pn : String) :
    LinuxProfile.matchesRaw (pn ++ "/index") = false := by
  unfold LinuxProfile.matchesRaw
  have hend : strEnds ".zip" (pn ++ "/index") = false := by
    unfold strEnds
    rw [String.data_append]
    show hasPre ('p' :: "iz.".data) ((pn.data ++ "/index".data).reverse) = false
    rw [show ("/index".data : List Char) = ['/','i','n','d','e','x'] from rfl]
    rw [List.reverse_append]
    show hasPre ('p' :: "iz.".data) ('x' :: ( 'e' :: 'd' :: 'n' :: 'i' :: '/' :: pn.data.reverse)) = false
    simp [hasPre]
  rw [hend]
  simp

/-- C10: in Variant D the target id is derived by character-set
stripping (`lstrip("src/")` then `rstrip(".zip")`), not by removing the
literal prefix `src/` and suffix `.zip`: for a stem whose first
character avoids `{s, r, c, /}` and whose last character avoids
`{., z, i, p}` the derived id equals the stem, while e.g.
`src/Linux/gzip.zip` derives `Linux/g`, dropping extra stem
characters. -/
theorem C10_variantD_id_is_charset_strip
    (stem : String) (c1 c2 : Char)
    (h1 : stem.data.head? = some c1) (h2 : c1 ∉ srcChars)
    (h3 : stem.data.getLast? = some c2) (h4 : c2 ∉ zipChars) :
    LinuxProfile.deriveId ("src/" ++ stem ++ ".zip") = stem
    ∧ LinuxProfile.deriveId "src/Linux/gzip.zip" = "Linux/g"
    ∧ LinuxProfile.deriveId "src/Linux/gzip.zip" ≠ "Linux/gzip" := by
  refine ⟨?_, by decide, by decide⟩
  obtain ⟨tl, htl⟩ : ∃ tl, stem.data = c1 :: tl := by
    cases hsd : stem.data with
    | nil => rw [hsd] at h1; cases h1
    | cons a t =>
        rw [hsd] at h1
        have ha : a = c1 := by simpa using h1
        exact ⟨t, by rw [ha]⟩
  obtain ⟨tr, htr⟩ : ∃ tr, stem.data.reverse = c2 :: tr := by
    have h3' : stem.data.reverse.head? = some c2 := by
      rw [List.head?_reverse]; exact h3
    cases hsd : stem.data.reverse with
    | nil => rw [hsd] at h3'; cases h3'
    | cons a t =>
        rw [hsd] at h3'
        have ha : a = c2 := by simpa using h3'
        exact ⟨t, by rw [ha]⟩
  have hd : ("src/" ++ stem ++ ".zip").data
      = 's' :: 'r' :: 'c' :: '/' :: (stem.data ++ ['.', 'z', 'i', 'p']) := by
    rw [String.data_append, String.data_append]
    show (['s', 'r', 'c', '/'] ++ stem.data) ++ ['.', 'z', 'i', 'p']
        = 's' :: 'r' :: 'c' :: '/' :: (stem.data ++ ['.', 'z', 'i', 'p'])
    simp
  have hL : pyLstrip srcChars ("src/" ++ stem ++ ".zip")
      = ⟨stem.data ++ ['.', 'z', 'i', 'p']⟩ := by
    have hdata : ("src/" ++ stem ++ ".zip").data.dropWhile (fun c => decide (c ∈ srcChars))
        = stem.data ++ ['.', 'z', 'i', 'p'] := by
      rw [hd]
      rw [List.dropWhile_cons, if_pos (by decide)]
      rw [List.dropWhile_cons, if_pos (by decide)]
      rw [List.dropWhile_cons, if_pos (by decide)]
      rw [List.dropWhile_cons, if_pos (by decide)]
      rw [htl, List.cons_append, List.dropWhile_cons, if_neg (by simpa using h2)]
    exact congrArg String.mk hdata
  unfold LinuxProfile.deriveId
  rw [hL]
  have hdata : ((stem.data ++ ['.', 'z', 'i', 'p']).reverse.dropWhile
      (fun c => decide (c ∈ zipChars))).reverse = stem.data := by
    rw [List.reverse_append]
    show (('p' :: 'i' :: 'z' :: '.' :: stem.data.reverse).dropWhile
      (fun c => decide (c ∈ zipChars))).reverse = stem.data
    rw [List.dropWhile_cons, if_pos (by decide)]
    rw [List.dropWhile_cons, if_pos (by decide)]
    rw [List.dropWhile_cons, if_pos (by decide)]
    rw [List.dropWhile_cons, if_pos (by decide)]
    rw [htr, List.dropWhile_cons, if_neg (by simpa using h4), ← htr,
        List.reverse_reverse]
  exact congrArg String.mk hdata

/-- Witness for C10 at the stem `Linux/4.4/test` (so the full path is
`src/Linux/4.4/test.zip`). -/
theorem C10_variantD_id_is_charset_strip_witness :
    ("Linux/4.4/test" : String).data.head? = some 'L'
    ∧ 'L' ∉ srcChars
    ∧ ("Linux/4.4/test" : String).data.getLast? = some 't'
    ∧ 't' ∉ zipChars
    ∧ LinuxProfile.deriveId ("src/" ++ "Linux/4.4/test" ++ ".zip") = "Linux/4.4/test" :=
  ⟨by decide, by decide, by decide, by decide,
    (C10_variantD_id_is_charset_strip "Linux/4.4/test" 'L' 't'
      (by decide) (by decide) (by decide) (by decide)).1⟩

/-- C7: applying the `merge` transform sets the reserved `$MERGE` key of
the output document to the args verbatim and leaves every other key
unchanged; in particular `merge` with args `{a: 1}` on `{x: 2}` yields
`{x: 2, $MERGE: {a: 1}}`. -/
theorem C7_merge_sets_MERGE_key
    (fields : List (String × Val)) (args : Val) (k : String)
    (hk : k ≠ "$MERGE") :
    TransformProfile [("merge", args)] (.obj fields)
      = .ok (.obj (setKey fields "$MERGE" args))
    ∧ lookupKey (setKey fields "$MERGE" args) "$MERGE" = some args
    ∧ lookupKey (setKey fields "$MERGE" args) k = lookupKey fields k
    ∧ TransformProfile [("merge", .obj [("a", .num 1)])] (.obj [("x", .num 2)])
      = .ok (.obj [("x", .num 2), ("$MERGE", .obj [("a", .num 1)])]) :=
  ⟨rfl, lookupKey_setKey_self _ _ _, lookupKey_setKey_ne _ _ _ _ hk, rfl⟩

/-- Witness for C7 on the spec's own example. -/
theorem C7_merge_sets_MERGE_key_witness :
    ("x" : String) ≠ "$MERGE"
    ∧ TransformProfile [("merge", Val.obj [("a", Val.num 1)])] (Val.obj [("x", Val.num 2)])
      = Except.ok (Val.obj (setKey [("x", Val.num 2)] "$MERGE" (Val.obj [("a", Val.num 1)])))
    ∧ lookupKey (setKey [("x", Val.num 2)] "$MERGE" (Val.obj [("a", Val.num 1)])) "$MERGE"
      = some (Val.obj [("a", Val.num 1)])
    ∧ lookupKey (setKey [("x", Val.num 2)] "$MERGE" (Val.obj [("a", Val.num 1)])) "x"
      = lookupKey [("x", Val.num 2)] "x" :=
  ⟨by decide,
    (C7_merge_sets_MERGE_key [("x", .num 2)] (.obj [("a", .num 1)]) "x" (by decide)).1,
    (C7_merge_sets_MERGE_key [("x", .num 2)] (.obj [("a", .num 1)]) "x" (by decide)).2.1,
    (C7_merge_sets_MERGE_key [("x", .num 2)] (.obj [("a", .num 1)]) "x" (by decide)).2.2.1⟩

/-- A world whose Linux converter never produces a profile (the external
converter returns no result), with trivial other collaborators. -/
def failConvWorld : World :=
  ⟨fun _ _ => .str "raw", fun _ v => v, fun v => v, fun _ => none⟩

/-- A repository holding exactly one raw Linux archive, not yet
converted. -/
def linuxRepoC3 : Repo :=
  ⟨[("src/Linux/4.4/test.zip", ⟨.str "zipdata", 0⟩)], 1⟩

/-- The manifest arguments of the Linux target used for C3. -/
def linuxCfgC3 : LinuxProfileArgs := ⟨"Linux", none, false⟩

/-- C3: the code, not the claim, is at fault here.  When the converter
returns no result for a matching raw archive, `LinuxProfile.Build`'s
skip branch executes `self.session.logging.info("Skipped %s, ...",
profile_path)` — but no variable `profile_path` exists anywhere in the
function (the loop variables are `source_profile`, `profile_id`,
`profile_fullpath` and `profile`), so the call raises a `NameError`
instead of logging and continuing: the build aborts rather than
skipping the artifact. -/
theorem C3_conversion_failure_raises_NameError :
    (LinuxProfile.Build linuxCfgC3 failConvWorld linuxRepoC3).err
      = some "NameError: name profile_path is not defined"
    ∧ (LinuxProfile.Build linuxCfgC3 failConvWorld linuxRepoC3).converts
      = ["src/Linux/4.4/test.zip"]
    ∧ (LinuxProfile.Build linuxCfgC3 failConvWorld linuxRepoC3).writes = []
    ∧ (LinuxProfile.Build linuxCfgC3 failConvWorld linuxRepoC3).changed = false :=
  ⟨rfl, rfl, rfl, rfl⟩

/-- C2: Variant B rebuild condition.  With the source present (metadata
`st`, payload `d`) and a transform spec that succeeds on `d`
(producing `d2`), `CopyAndTransform.Build` reads the source, transforms
and stores the target exactly when the target metadata is absent or the
source is strictly newer; otherwise it performs no read and no store
write. -/
theorem C2_variantB_freshness
    (cfg : CopyAndTransformArgs) (r : Repo) (st : Nat) (d d2 : Val)
    (hs : r.metadata cfg.source = some st)
    (hd : r.getData cfg.source = some d)
    (ht : TransformProfile cfg.transforms d = .ok d2) :
    ((r.metadata cfg.profile_name = none ∨
        (∃ pt, r.metadata cfg.profile_name = some pt ∧ pt < st)) →
      (CopyAndTransform.Build cfg r).writes = [(cfg.profile_name, PPrint d2)]
      ∧ (CopyAndTransform.Build cfg r).reads = [cfg.source]
      ∧ (CopyAndTransform.Build cfg r).err = none)
    ∧ (∀ pt, r.metadata cfg.profile_name = some pt → st ≤ pt →
      (CopyAndTransform.Build cfg r).writes = []
      ∧ (CopyAndTransform.Build cfg r).reads = []
      ∧ (CopyAndTransform.Build cfg r).err = none) := by
  constructor
  · intro hcond
    have hgo : CopyAndTransform.Build cfg r
        = { ((BOut.start r).read cfg.source).write cfg.profile_name (PPrint d2)
            with changed := true } := by
      unfold CopyAndTransform.Build
      rcases hcond with hpn | ⟨pt, hpn, hlt⟩
      · rw [hpn]
        simp only [hd, ht]
      · rw [hpn, hs]
        simp only [hd, ht, if_pos hlt]
    rw [hgo]
    simp [BOut.start, BOut.read, BOut.write]
  · intro pt hpn hle
    have hb : CopyAndTransform.Build cfg r = BOut.start r := by
      unfold CopyAndTransform.Build
      rw [hpn, hs]
      simp only [if_neg (Nat.not_lt.mpr hle)]
    rw [hb]
    exact ⟨rfl, rfl, rfl⟩

/-- Witness for C2: a stale target (source newer than target) that gets
rebuilt, and a fresh target that is left alone, in one concrete
repository. -/
theorem C2_variantB_freshness_witness :
    (⟨[("src/prof", ⟨Val.obj [("x", Val.num 2)], 5⟩),
       ("winxp", ⟨Val.str "old", 3⟩)], 6⟩ : Repo).metadata "src/prof" = some 5
    ∧ (⟨[("src/prof", ⟨Val.obj [("x", Val.num 2)], 5⟩),
       ("winxp", ⟨Val.str "old", 3⟩)], 6⟩ : Repo).getData "src/prof"
      = some (Val.obj [("x", Val.num 2)])
    ∧ TransformProfile [] (Val.obj [("x", Val.num 2)]) = .ok (Val.obj [("x", Val.num 2)])
    ∧ ((CopyAndTransform.Build ⟨"winxp", "src/prof", []⟩
        ⟨[("src/prof", ⟨Val.obj [("x", Val.num 2)], 5⟩),
          ("winxp", ⟨Val.str "old", 3⟩)], 6⟩).writes
      = [("winxp", PPrint (Val.obj [("x", Val.num 2)]))]) := by
  refine ⟨rfl, rfl, rfl, ?_⟩
  exact (C2_variantB_freshness ⟨"winxp", "src/prof", []⟩
    ⟨[("src/prof", ⟨Val.obj [("x", Val.num 2)], 5⟩),
      ("winxp", ⟨Val.str "old", 3⟩)], 6⟩ 5 (Val.obj [("x", Val.num 2)])
    (Val.obj [("x", Val.num 2)]) rfl rfl rfl).1
    (Or.inr ⟨3, rfl, by decide⟩) |>.1

/-! ## Shape lemmas for `ManageRepository.render` -/

theorem render_cons_skip (reg bt : List String) (pname : String)
    (kwargs : List (String × Val)) (rest : List (String × List (String × Val)))
    (h : bt ≠ [] ∧ pname ∉ bt) :
    ManageRepository.render reg bt ((pname, kwargs) :: rest)
      = ManageRepository.render reg bt rest := by
  simp only [ManageRepository.render]
  rw [if_pos h]

theorem render_cons_run (reg bt : List String) (pname : String)
    (kwargs : List (String × Val)) (rest : List (String × List (String × Val)))
    (tn : String)
    (hns : ¬(bt ≠ [] ∧ pname ∉ bt))
    (hty : lookupKey kwargs "type" = some (.str tn))
    (htn : tn ≠ "")
    (hreg : tn ∈ reg) :
    ManageRepository.render reg bt ((pname, kwargs) :: rest)
      = ((pname, tn) :: (ManageRepository.render reg bt rest).1,
         (ManageRepository.render reg bt rest).2) := by
  have hne : ¬ (truthy (Val.str tn) = false) := by simp [truthy, htn]
  simp only [ManageRepository.render, if_neg hns, hty, if_neg hne, if_pos hreg]

theorem render_cons_missing (reg bt : List String) (pname : String)
    (kwargs : List (String × Val)) (rest : List (String × List (String × Val)))
    (hns : ¬(bt ≠ [] ∧ pname ∉ bt))
    (hty : lookupKey kwargs "type" = none) :
    ManageRepository.render reg bt ((pname, kwargs) :: rest)
      = ([], some ("Unspecified repository handler for profile " ++ pname)) := by
  simp only [ManageRepository.render, if_neg hns, hty]

theorem render_cons_falsy (reg bt : List String) (pname : String)
    (kwargs : List (String × Val)) (rest : List (String × List (String × Val)))
    (tv : Val)
    (hns : ¬(bt ≠ [] ∧ pname ∉ bt))
    (hty : lookupKey kwargs "type" = some tv)
    (hfalsy : truthy tv = false) :
    ManageRepository.render reg bt ((pname, kwargs) :: rest)
      = ([], some ("Unspecified repository handler for profile " ++ pname)) := by
  simp only [ManageRepository.render, if_neg hns, hty, if_pos hfalsy]

theorem render_cons_unknown (reg bt : List String) (pname : String)
    (kwargs : List (String × Val)) (rest : List (String × List (String × Val)))
    (tn : String)
    (hns : ¬(bt ≠ [] ∧ pname ∉ bt))
    (hty : lookupKey kwargs "type" = some (.str tn))
    (htn : tn ≠ "")
    (hreg : tn ∉ reg) :
    ManageRepository.render reg bt ((pname, kwargs) :: rest)
      = ([], some ("Unknown repository handler " ++ tn)) := by
  have hne : ¬ (truthy (Val.str tn) = false) := by simp [truthy, htn]
  simp only [ManageRepository.render, if_neg hns, hty, if_neg hne, if_neg hreg]

theorem render_cons_nonstr (reg bt : List String) (pname : String)
    (kwargs : List (String × Val)) (rest : List (String × List (String × Val)))
    (tv : Val)
    (hns : ¬(bt ≠ [] ∧ pname ∉ bt))
    (hty : lookupKey kwargs "type" = some tv)
    (htruthy : truthy tv ≠ false)
    (hnostr : ∀ tn : String, tv ≠ .str tn) :
    ManageRepository.render reg bt ((pname, kwargs) :: rest)
      = ([], some ("Unknown repository handler " ++ encodeVal tv)) := by
  cases tv with
  | str tn => exact absurd rfl (hnostr tn)
  | num n => simp only [ManageRepository.render, if_neg hns, hty, if_neg htruthy]
  | list l => simp only [ManageRepository.render, if_neg hns, hty, if_neg htruthy]
  | obj l => simp only [ManageRepository.render, if_neg hns, hty, if_neg htruthy]

/-- Appending more targets after a prefix that processed without error:
the executed builds concatenate and the error is the suffix's. -/
theorem render_append_ok (reg bt : List String)
    (pre rest : List (String × List (String × Val)))
    (hpre : (ManageRepository.render reg bt pre).2 = none) :
    ManageRepository.render reg bt (pre ++ rest)
      = ((ManageRepository.render reg bt pre).1 ++ (ManageRepository.render reg bt rest).1,
         (ManageRepository.render reg bt rest).2) := by
  induction pre with
  | nil => simp [ManageRepository.render]
  | cons hd tl ih =>
      obtain ⟨pname, kwargs⟩ := hd
      by_cases hskip : bt ≠ [] ∧ pname ∉ bt
      · rw [render_cons_skip reg bt pname kwargs tl hskip] at hpre ⊢
        rw [List.cons_append, render_cons_skip reg bt pname kwargs (tl ++ rest) hskip]
        exact ih hpre
      · cases hty : lookupKey kwargs "type" with
        | none =>
            rw [render_cons_missing reg bt pname kwargs tl hskip hty] at hpre
            cases hpre
        | some tv =>
            by_cases hfalsy : truthy tv = false
            · rw [render_cons_falsy reg bt pname kwargs tl tv hskip hty hfalsy] at hpre
              cases hpre
            · cases htv : tv with
              | str tn =>
                  have htn : tn ≠ "" := by
                    rw [htv] at hfalsy
                    simpa [truthy] using hfalsy
                  by_cases hreg : tn ∈ reg
                  · rw [htv] at hty
                    rw [render_cons_run reg bt pname kwargs tl tn hskip hty htn hreg] at hpre
                    simp only at hpre
                    rw [List.cons_append,
                        render_cons_run reg bt pname kwargs (tl ++ rest) tn hskip hty htn hreg,
                        render_cons_run reg bt pname kwargs tl tn hskip hty htn hreg,
                        ih hpre]
                    simp
                  · rw [htv] at hty
                    rw [render_cons_unknown reg bt pname kwargs tl tn hskip hty htn hreg] at hpre
                    cases hpre
              | num n =>
                  rw [htv] at hty hfalsy
                  rw [render_cons_nonstr reg bt pname kwargs tl _ hskip hty hfalsy
                    (fun tn h => by cases h)] at hpre
                  cases hpre
              | list l =>
                  rw [htv] at hty hfalsy
                  rw [render_cons_nonstr reg bt pname kwargs tl _ hskip hty hfalsy
                    (fun tn h => by cases h)] at hpre
                  cases hpre
              | obj l =>
                  rw [htv] at hty hfalsy
                  rw [render_cons_nonstr reg bt pname kwargs tl _ hskip hty hfalsy
                    (fun tn h => by cases h)] at hpre
                  cases hpre

/-- C9: a non-skipped manifest target with an absent `type` field makes
the orchestrator fail with the missing-handler error, and one whose
`type` names no registered builder fails with the unknown-handler
error; in both cases the run aborts with exactly the builders of the
error-free prefix having been constructed and run — nothing for the
failing target or any later one. -/
theorem C9_orchestrator_builder_type_errors
    (reg bt : List String) (pre rest : List (String × List (String × Val)))
    (pname : String) (kwargs : List (String × Val)) (tn : String)
    (hpre : (ManageRepository.render reg bt pre).2 = none)
    (hns : ¬(bt ≠ [] ∧ pname ∉ bt)) :
    (lookupKey kwargs "type" = none →
      ManageRepository.render reg bt (pre ++ (pname, kwargs) :: rest)
        = ((ManageRepository.render reg bt pre).1,
           some ("Unspecified repository handler for profile " ++ pname)))
    ∧ (lookupKey kwargs "type" = some (.str tn) → tn ≠ "" → tn ∉ reg →
      ManageRepository.render reg bt (pre ++ (pname, kwargs) :: rest)
        = ((ManageRepository.render reg bt pre).1,
           some ("Unknown repository handler " ++ tn))) := by
  constructor
  · intro hty
    rw [render_append_ok reg bt pre ((pname, kwargs) :: rest) hpre,
        render_cons_missing reg bt pname kwargs rest hns hty]
    simp
  · intro hty htn hreg
    rw [render_append_ok reg bt pre ((pname, kwargs) :: rest) hpre,
        render_cons_unknown reg bt pname kwargs rest tn hns hty htn hreg]
    simp

/-- Witness for C9: a manifest with one valid Linux target followed by a
target with no `type` (respectively a bogus `type`), run with no
selection filter against the real registry. -/
theorem C9_orchestrator_builder_type_errors_witness :
    (ManageRepository.render registeredBuilders []
        [("Linux", [("type", Val.str "LinuxProfile")])]).2 = none
    ∧ ¬(([] : List String) ≠ [] ∧ "broken" ∉ ([] : List String))
    ∧ (lookupKey ([] : List (String × Val)) "type" = none →
      ManageRepository.render registeredBuilders []
          ([("Linux", [("type", Val.str "LinuxProfile")])] ++ [("broken", [])])
        = ((ManageRepository.render registeredBuilders []
            [("Linux", [("type", Val.str "LinuxProfile")])]).1,
           some ("Unspecified repository handler for profile " ++ "broken")))
    ∧ (lookupKey [("type", Val.str "NoSuchBuilder")] "type"
          = some (Val.str "NoSuchBuilder") →
       "NoSuchBuilder" ≠ "" → "NoSuchBuilder" ∉ registeredBuilders →
      ManageRepository.render registeredBuilders []
          ([("Linux", [("type", Val.str "LinuxProfile")])]
            ++ [("broken", [("type", Val.str "NoSuchBuilder")])])
        = ((ManageRepository.render registeredBuilders []
            [("Linux", [("type", Val.str "LinuxProfile")])]).1,
           some ("Unknown repository handler " ++ "NoSuchBuilder"))) :=
  ⟨rfl, by simp,
    (C9_orchestrator_builder_type_errors registeredBuilders []
      [("Linux", [("type", Val.str "LinuxProfile")])]
      [] "broken" [] "NoSuchBuilder" rfl (by simp)).1,
    (C9_orchestrator_builder_type_errors registeredBuilders []
      [("Linux", [("type", Val.str "LinuxProfile")])]
      [] "broken" [("type", Val.str "NoSuchBuilder")] "NoSuchBuilder" rfl (by simp)).2⟩

/-! ## Index trigger lemmas -/

theorem BuildIndex_indexed (pn : String) (idx : Option String) (w : World) (s : BOut) :
    (BuildIndex pn idx w s).indexed = true := by
  unfold BuildIndex
  split
  · rfl
  · split <;> rfl

theorem indexTriggerAD_force_indexed (pn : String) (idx : Option String)
    (w : World) (s : BOut) (herr : s.err = none) :
    (indexTriggerAD pn idx true w s).indexed = true := by
  unfold indexTriggerAD
  rw [herr]
  simp [BuildIndex_indexed]

theorem indexTriggerC_none_indexed (pn : String) (w : World) (s : BOut) :
    (indexTriggerC pn none w s).indexed = s.indexed := by
  unfold indexTriggerC
  split
  · rfl
  · simp

theorem osx_step_indexed (cfg : OSXProfileArgs) (src : String) (s : BOut) :
    (OSXProfile.step cfg src s).indexed = s.indexed := by
  unfold OSXProfile.step
  by_cases he : s.err.isSome
  · rw [if_pos he]
  · rw [if_neg he]
    by_cases hm : (s.repo.metadata ("OSX/" ++ lastSegment src)).isSome
    · rw [if_pos hm]
    · rw [if_neg hm]
      split
      · simp [BOut.read, BOut.fail]
      · split
        · simp [BOut.read, BOut.fail]
        · simp [BOut.read, BOut.write]

theorem osx_loop_indexed (cfg : OSXProfileArgs) (srcs : List String) (s : BOut) :
    (OSXProfile.loop cfg srcs s).indexed = s.indexed := by
  unfold OSXProfile.loop
  induction srcs generalizing s with
  | nil => rfl
  | cons src rest ih =>
      show (foldSteps (OSXProfile.step cfg) rest (OSXProfile.step cfg src s)).indexed
        = s.indexed
      rw [ih (OSXProfile.step cfg src s), osx_step_indexed]

/-- C5: index trigger asymmetry.  A Variant C (OSX) target with
`force_build_index = false` and no index spec never invokes the index
build, whatever happened in its loop; Variant A and Variant D targets
with `force_build_index = true` invoke it even when their loops changed
nothing (provided the loop itself did not raise). -/
theorem C5_index_trigger_asymmetry
    (cfgC : OSXProfileArgs) (wC : World) (rC : Repo)
    (cfgA : WindowsGUIDProfileArgs) (wA : World) (rA : Repo)
    (cfgD : LinuxProfileArgs) (wD : World) (rD : Repo)
    (hCidx : cfgC.index = none) (hCforce : cfgC.force_build_index = false)
    (hAforce : cfgA.force_build_index = true)
    (hAerr : (WindowsGUIDProfile.loop cfgA wA rA).err = none)
    (hAchanged : (WindowsGUIDProfile.loop cfgA wA rA).changed = false)
    (hDforce : cfgD.force_build_index = true)
    (hDerr : (LinuxProfile.loop wD rD).err = none)
    (hDchanged : (LinuxProfile.loop wD rD).changed = false) :
    (OSXProfile.Build cfgC wC rC).indexed = false
    ∧ (WindowsGUIDProfile.Build cfgA wA rA).indexed = true
    ∧ (LinuxProfile.Build cfgD wD rD).indexed = true := by
  refine ⟨?_, ?_, ?_⟩
  · unfold OSXProfile.Build
    rw [hCidx, indexTriggerC_none_indexed, osx_loop_indexed]
    rfl
  · unfold WindowsGUIDProfile.Build
    rw [hAforce]
    exact indexTriggerAD_force_indexed _ _ _ _ hAerr
  · unfold LinuxProfile.Build
    rw [hDforce]
    exact indexTriggerAD_force_indexed _ _ _ _ hDerr

/-- Witness for C5 on concrete targets: an OSX target with no index
spec, and Windows/Linux targets with the force flag set over small
repositories whose loops change nothing. -/
theorem C5_index_trigger_asymmetry_witness :
    ((⟨"OSX", [], [], none, false⟩ : OSXProfileArgs).index = none)
    ∧ ((⟨"win", "g.json", none, [], none, true⟩ : WindowsGUIDProfileArgs).force_build_index
        = true)
    ∧ (WindowsGUIDProfile.loop ⟨"win", "g.json", none, [], none, true⟩ failConvWorld
        ⟨[("g.json", ⟨Val.obj [], 0⟩)], 1⟩).err = none
    ∧ (LinuxProfile.loop failConvWorld ⟨[], 0⟩).err = none
    ∧ (OSXProfile.Build ⟨"OSX", [], [], none, false⟩ failConvWorld ⟨[], 0⟩).indexed = false
    ∧ (WindowsGUIDProfile.Build ⟨"win", "g.json", none, [], none, true⟩ failConvWorld
        ⟨[("g.json", ⟨Val.obj [], 0⟩)], 1⟩).indexed = true
    ∧ (LinuxProfile.Build ⟨"Linux", none, true⟩ failConvWorld ⟨[], 0⟩).indexed = true := by
  have h := C5_index_trigger_asymmetry
    ⟨"OSX", [], [], none, false⟩ failConvWorld ⟨[], 0⟩
    ⟨"win", "g.json", none, [], none, true⟩ failConvWorld ⟨[("g.json", ⟨Val.obj [], 0⟩)], 1⟩
    ⟨"Linux", none, true⟩ failConvWorld ⟨[], 0⟩
    rfl rfl rfl rfl rfl rfl rfl rfl
  exact ⟨rfl, rfl, rfl, rfl, h.1, h.2.1, h.2.2⟩

/-! ## Generic lemmas about builder loops -/

theorem foldSteps_sticky {α : Type} (f : α → BOut → BOut)
    (hf : ∀ x s, s.err.isSome → f x s = s) :
    ∀ (L : List α) (s : BOut), s.err.isSome → foldSteps f L s = s := by
  intro L
  induction L with
  | nil => intro s _; rfl
  | cons x xs ih =>
      intro s hs
      show foldSteps f xs (f x s) = s
      rw [hf x s hs]
      exact ih s hs

theorem foldSteps_err_back {α : Type} (f : α → BOut → BOut)
    (hf : ∀ x s, s.err.isSome → f x s = s)
    (L : List α) (s : BOut) (h : (foldSteps f L s).err = none) : s.err = none := by
  by_cases hs : s.err.isSome
  · rw [foldSteps_sticky f hf L s hs] at h
    rw [h] at hs
    cases hs
  · exact Option.not_isSome_iff_eq_none.mp hs

theorem foldSteps_inv {α : Type} (f : α → BOut → BOut) (P : BOut → Prop)
    (hP : ∀ x s, P s → P (f x s)) :
    ∀ (L : List α) (s : BOut), P s → P (foldSteps f L s) := by
  intro L
  induction L with
  | nil => intro s hs; exact hs
  | cons x xs ih =>
      intro s hs
      exact ih (f x s) (hP x s hs)

theorem foldSteps_noop {α : Type} (f : α → BOut → BOut)
    (L : List α) (s : BOut) (h : ∀ x ∈ L, f x s = s) : foldSteps f L s = s := by
  induction L with
  | nil => rfl
  | cons x xs ih =>
      show foldSteps f xs (f x s) = s
      rw [h x (List.mem_cons_self x xs)]
      exact ih (fun y hy => h y (List.mem_cons_of_mem x hy))

theorem foldSteps_all {α : Type} (f : α → BOut → BOut) (Q : α → BOut → Prop)
    (hsticky : ∀ x s, s.err.isSome → f x s = s)
    (hQstep : ∀ x s, (f x s).err = none → Q x (f x s))
    (hQmono : ∀ x y s, Q x s → Q x (f y s)) :
    ∀ (L : List α) (s : BOut), (foldSteps f L s).err = none →
      ∀ x ∈ L, Q x (foldSteps f L s) := by
  intro L
  induction L with
  | nil => intro s _ x hx; cases hx
  | cons y ys ih =>
      intro s h x hx
      rcases List.mem_cons.mp hx with hxy | hxs
      · subst hxy
        have hfx : (f x s).err = none := foldSteps_err_back f hsticky ys (f x s) h
        exact foldSteps_inv f (Q x) (fun z t => hQmono x z t) ys (f x s) (hQstep x s hfx)
      · exact ih (f y s) h x hxs

/-! ## Step facts for `OSXProfile` -/

theorem osx_step_sticky (cfg : OSXProfileArgs) (src : String) (s : BOut)
    (h : s.err.isSome) : OSXProfile.step cfg src s = s := by
  unfold OSXProfile.step
  rw [if_pos h]

theorem osx_step_skip (cfg : OSXProfileArgs) (src : String) (s : BOut)
    (he : ¬ s.err.isSome)
    (hm : (s.repo.metadata ("OSX/" ++ lastSegment src)).isSome) :
    OSXProfile.step cfg src s = s := by
  unfold OSXProfile.step
  rw [if_neg he, if_pos hm]

theorem osx_step_metadata_mono (cfg : OSXProfileArgs) (src : String) (s : BOut)
    (q : String) (h : (s.repo.metadata q).isSome) :
    ((OSXProfile.step cfg src s).repo.metadata q).isSome := by
  unfold OSXProfile.step
  by_cases he : s.err.isSome
  · rw [if_pos he]; exact h
  · rw [if_neg he]
    by_cases hm : (s.repo.metadata ("OSX/" ++ lastSegment src)).isSome
    · rw [if_pos hm]; exact h
    · rw [if_neg hm]
      split
      · simpa [BOut.read, BOut.fail] using h
      · split
        · simpa [BOut.read, BOut.fail] using h
        · simpa [BOut.read, BOut.write] using metadata_isSome_storeData _ _ _ _ h

theorem osx_step_ensures (cfg : OSXProfileArgs) (src : String) (s : BOut)
    (h : (OSXProfile.step cfg src s).err = none) :
    ((OSXProfile.step cfg src s).repo.metadata ("OSX/" ++ lastSegment src)).isSome := by
  by_cases he : s.err.isSome
  · rw [osx_step_sticky cfg src s he] at h
    rw [h] at he
    cases he
  · by_cases hm : (s.repo.metadata ("OSX/" ++ lastSegment src)).isSome
    · rw [osx_step_skip cfg src s he hm]
      exact hm
    · unfold OSXProfile.step at h ⊢
      rw [if_neg he, if_neg hm] at h ⊢
      split at h
      · simp [BOut.read, BOut.fail] at h
      · split at h
        · simp [BOut.read, BOut.fail] at h
        · simp [BOut.read, BOut.write, metadata_storeData]

theorem osx_step_writes_changed (cfg : OSXProfileArgs) (src : String) (s : BOut) :
    ((OSXProfile.step cfg src s).changed = false →
        (OSXProfile.step cfg src s).writes = s.writes ∧ s.changed = false)
    ∧ s.writes.length ≤ (OSXProfile.step cfg src s).writes.length
    ∧ (s.changed = false → (OSXProfile.step cfg src s).changed = true →
        s.writes.length < (OSXProfile.step cfg src s).writes.length)
    ∧ (s.changed = true → (OSXProfile.step cfg src s).changed = true) := by
  unfold OSXProfile.step
  by_cases he : s.err.isSome
  · rw [if_pos he]
    exact ⟨fun h => ⟨rfl, h⟩, le_refl _, fun h1 h2 => absurd (h1 ▸ h2) (by simp [h1]), fun h => h⟩
  · rw [if_neg he]
    by_cases hm : (s.repo.metadata ("OSX/" ++ lastSegment src)).isSome
    · rw [if_pos hm]
      exact ⟨fun h => ⟨rfl, h⟩, le_refl _, fun h1 h2 => absurd (h1 ▸ h2) (by simp [h1]), fun h => h⟩
    · rw [if_neg hm]
      split
      · refine ⟨fun h => ⟨by simp [BOut.read, BOut.fail], ?_⟩, ?_, ?_, ?_⟩
        · simpa [BOut.read, BOut.fail] using h
        · simp [BOut.read, BOut.fail]
        · intro h1 h2
          simp [BOut.read, BOut.fail] at h2
          rw [h1] at h2
          cases h2
        · intro h1
          simpa [BOut.read, BOut.fail] using h1
      · split
        · refine ⟨fun h => ⟨by simp [BOut.read, BOut.fail], ?_⟩, ?_, ?_, ?_⟩
          · simpa [BOut.read, BOut.fail] using h
          · simp [BOut.read, BOut.fail]
          · intro h1 h2
            simp [BOut.read, BOut.fail] at h2
            rw [h1] at h2
            cases h2
          · intro h1
            simpa [BOut.read, BOut.fail] using h1
        · refine ⟨fun h => ?_, ?_, ?_, fun _ => by simp [BOut.read, BOut.write]⟩
          · simp [BOut.read, BOut.write] at h
          · simp [BOut.read, BOut.write]
          · intro h1 h2
            simp [BOut.read, BOut.write]

/-! ## Facts about the index triggers -/

theorem BuildIndex_err_back (pn : String) (idx : Option String) (w : World) (s : BOut)
    (h : (BuildIndex pn idx w s).err = none) : s.err = none := by
  unfold BuildIndex at h
  revert h
  split
  · intro h; cases h
  · split
    · intro h; cases h
    · intro h; exact h

theorem BuildIndex_metadata_mono (pn : String) (idx : Option String) (w : World)
    (s : BOut) (q : String) (h : (s.repo.metadata q).isSome) :
    ((BuildIndex pn idx w s).repo.metadata q).isSome := by
  unfold BuildIndex
  split
  · exact h
  · split
    · exact h
    · exact metadata_isSome_storeData _ _ _ _ h

theorem BuildIndex_fetches_converts (pn : String) (idx : Option String) (w : World)
    (s : BOut) :
    (BuildIndex pn idx w s).fetches = s.fetches
    ∧ (BuildIndex pn idx w s).converts = s.converts
    ∧ (BuildIndex pn idx w s).ret = s.ret
    ∧ ∃ t, (BuildIndex pn idx w s).writes = s.writes ++ t := by
  unfold BuildIndex
  split
  · exact ⟨rfl, rfl, rfl, [], by simp⟩
  · split
    · exact ⟨rfl, rfl, rfl, [], by simp⟩
    · exact ⟨rfl, rfl, rfl, _, rfl⟩

theorem indexTriggerAD_err_back (pn : String) (idx : Option String) (force : Bool)
    (w : World) (s : BOut) (h : (indexTriggerAD pn idx force w s).err = none) :
    s.err = none := by
  unfold indexTriggerAD at h
  revert h
  split
  · intro h; exact h
  · split
    · exact BuildIndex_err_back pn idx w s
    · intro h; exact h

theorem indexTriggerAD_metadata_mono (pn : String) (idx : Option String) (force : Bool)
    (w : World) (s : BOut) (q : String) (h : (s.repo.metadata q).isSome) :
    ((indexTriggerAD pn idx force w s).repo.metadata q).isSome := by
  unfold indexTriggerAD
  split
  · exact h
  · split
    · exact BuildIndex_metadata_mono pn idx w s q h
    · exact h

theorem indexTriggerAD_skip (pn : String) (idx : Option String) (w : World) (s : BOut)
    (hc : s.changed = false) :
    indexTriggerAD pn idx false w s = s := by
  unfold indexTriggerAD
  split
  · rfl
  · rw [hc]
    simp

theorem indexTriggerC_err_back (pn : String) (idx : Option String)
    (w : World) (s : BOut) (h : (indexTriggerC pn idx w s).err = none) :
    s.err = none := by
  unfold indexTriggerC at h
  revert h
  split
  · intro h; exact h
  · split
    · exact BuildIndex_err_back pn idx w s
    · intro h; exact h

theorem indexTriggerC_metadata_mono (pn : String) (idx : Option String)
    (w : World) (s : BOut) (q : String) (h : (s.repo.metadata q).isSome) :
    ((indexTriggerC pn idx w s).repo.metadata q).isSome := by
  unfold indexTriggerC
  split
  · exact h
  · split
    · exact BuildIndex_metadata_mono pn idx w s q h
    · exact h

theorem indexTriggerC_skip (pn : String) (idx : Option String) (w : World) (s : BOut)
    (hc : s.changed = false) :
    indexTriggerC pn idx w s = s := by
  unfold indexTriggerC
  split
  · rfl
  · rw [hc]
    simp

/-! ## Step facts for `WindowsGUIDProfile` -/

theorem win_step_sticky (cfg : WindowsGUIDProfileArgs) (w : World) (pd g : String)
    (s : BOut) (h : s.err.isSome) : WindowsGUIDProfile.step cfg w pd g s = s := by
  unfold WindowsGUIDProfile.step
  rw [if_pos h]

theorem win_step_skip (cfg : WindowsGUIDProfileArgs) (w : World) (pd g : String)
    (s : BOut) (he : ¬ s.err.isSome)
    (hm : (s.repo.metadata (cfg.profile_name ++ "/" ++ g)).isSome) :
    WindowsGUIDProfile.step cfg w pd g s = s := by
  unfold WindowsGUIDProfile.step
  rw [if_neg he, if_pos hm]

theorem win_step_process (cfg : WindowsGUIDProfileArgs) (w : World) (pd g : String)
    (s : BOut) (he : ¬ s.err.isSome)
    (hm : ¬ (s.repo.metadata (cfg.profile_name ++ "/" ++ g)).isSome) :
    WindowsGUIDProfile.step cfg w pd g s
      = WindowsGUIDProfile.ParsePDB cfg w g pd
          (if (s.repo.metadata ("src/pdb/" ++ g ++ ".pdb")).isSome then
            { s with changed := true }
           else WindowsGUIDProfile.FetchPDB w g pd { s with changed := true }) := by
  unfold WindowsGUIDProfile.step
  rw [if_neg he, if_neg hm]

theorem FetchPDB_fields (w : World) (g pd : String) (s : BOut) :
    WindowsGUIDProfile.FetchPDB w g pd s
      = { s with repo := s.repo.storeData ("src/pdb/" ++ g ++ ".pdb") (w.fetch_pdb pd g),
                 writes := s.writes ++ [("src/pdb/" ++ g ++ ".pdb", w.fetch_pdb pd g)],
                 fetches := s.fetches ++ [g] } := by
  unfold WindowsGUIDProfile.FetchPDB
  simp [BOut.write]

theorem ParsePDB_none (cfg : WindowsGUIDProfileArgs) (w : World) (g pd : String)
    (s : BOut) (h : s.repo.getData ("src/pdb/" ++ g ++ ".pdb") = none) :
    WindowsGUIDProfile.ParsePDB cfg w g pd s
      = { s with reads := s.reads ++ ["src/pdb/" ++ g ++ ".pdb"],
                 err := some ("NotFound: src/pdb/" ++ g ++ ".pdb") } := by
  unfold WindowsGUIDProfile.ParsePDB
  simp only [h, BOut.read, BOut.fail]

theorem ParsePDB_err (cfg : WindowsGUIDProfileArgs) (w : World) (g pd : String)
    (s : BOut) (data : Val) (e : String)
    (hd : s.repo.getData ("src/pdb/" ++ g ++ ".pdb") = some data)
    (ht : TransformProfile cfg.transforms
        (w.parse_pdb (cfg.profile_class.getD (pyCapitalize pd)) data) = .error e) :
    WindowsGUIDProfile.ParsePDB cfg w g pd s
      = { s with reads := s.reads ++ ["src/pdb/" ++ g ++ ".pdb"],
                 converts := s.converts ++ [g], err := some e } := by
  unfold WindowsGUIDProfile.ParsePDB
  simp only [hd, ht, BOut.read]

theorem ParsePDB_ok (cfg : WindowsGUIDProfileArgs) (w : World) (g pd : String)
    (s : BOut) (data d2 : Val)
    (hd : s.repo.getData ("src/pdb/" ++ g ++ ".pdb") = some data)
    (ht : TransformProfile cfg.transforms
        (w.parse_pdb (cfg.profile_class.getD (pyCapitalize pd)) data) = .ok d2) :
    WindowsGUIDProfile.ParsePDB cfg w g pd s
      = { s with reads := s.reads ++ ["src/pdb/" ++ g ++ ".pdb"],
                 repo := s.repo.storeData (cfg.profile_name ++ "/" ++ g) d2,
                 writes := s.writes ++ [(cfg.profile_name ++ "/" ++ g, d2)],
                 converts := s.converts ++ [g] } := by
  unfold WindowsGUIDProfile.ParsePDB
  simp only [hd, ht, BOut.read, BOut.write]

theorem ParsePDB_metadata_mono (cfg : WindowsGUIDProfileArgs) (w : World)
    (g pd : String) (s : BOut) (q : String) (h : (s.repo.metadata q).isSome) :
    ((WindowsGUIDProfile.ParsePDB cfg w g pd s).repo.metadata q).isSome := by
  unfold WindowsGUIDProfile.ParsePDB
  split
  · simpa [BOut.read, BOut.fail] using h
  · split
    · simpa [BOut.read] using h
    · simpa [BOut.read, BOut.write] using metadata_isSome_storeData _ _ _ _ h

theorem win_step_metadata_mono (cfg : WindowsGUIDProfileArgs) (w : World)
    (pd g : String) (s : BOut) (q : String) (h : (s.repo.metadata q).isSome) :
    ((WindowsGUIDProfile.step cfg w pd g s).repo.metadata q).isSome := by
  by_cases he : s.err.isSome
  · rw [win_step_sticky cfg w pd g s he]; exact h
  · by_cases hm : (s.repo.metadata (cfg.profile_name ++ "/" ++ g)).isSome
    · rw [win_step_skip cfg w pd g s he hm]; exact h
    · rw [win_step_process cfg w pd g s he hm]
      apply ParsePDB_metadata_mono
      split
      · exact h
      · rw [FetchPDB_fields]
        exact metadata_isSome_storeData _ _ _ _ h

theorem win_step_ensures (cfg : WindowsGUIDProfileArgs) (w : World) (pd g : String)
    (s : BOut) (h : (WindowsGUIDProfile.step cfg w pd g s).err = none) :
    (((WindowsGUIDProfile.step cfg w pd g s).repo.metadata
      (cfg.profile_name ++ "/" ++ g)).isSome) := by
  by_cases he : s.err.isSome
  · rw [win_step_sticky cfg w pd g s he] at h
    rw [h] at he
    cases he
  · by_cases hm : (s.repo.metadata (cfg.profile_name ++ "/" ++ g)).isSome
    · rw [win_step_skip cfg w pd g s he hm]
      exact hm
    · rw [win_step_process cfg w pd g s he hm] at h ⊢
      revert h
      unfold WindowsGUIDProfile.ParsePDB
      split
      · intro h
        simp [BOut.read, BOut.fail] at h
      · split
        · intro h
          simp [BOut.read] at h
        · intro _
          simp [BOut.read, BOut.write, metadata_storeData]

/-! ## Loop facts for `WindowsGUIDProfile` -/

theorem win_guidLoop_sticky (cfg : WindowsGUIDProfileArgs) (w : World) (pd : String)
    (gs : List String) (s : BOut) (h : s.err.isSome) :
    WindowsGUIDProfile.guidLoop cfg w pd gs s = s :=
  foldSteps_sticky _ (fun g t ht => win_step_sticky cfg w pd g t ht) gs s h

theorem win_pair_sticky (cfg : WindowsGUIDProfileArgs) (w : World)
    (gf : List (String × List String)) (s : BOut) (h : s.err.isSome) :
    WindowsGUIDProfile.pairLoop cfg w gf s = s :=
  foldSteps_sticky _ (fun pr t ht => win_guidLoop_sticky cfg w pr.1 pr.2 t ht) gf s h

theorem win_guidLoop_metadata_mono (cfg : WindowsGUIDProfileArgs) (w : World)
    (pd : String) (gs : List String) (s : BOut) (q : String)
    (h : (s.repo.metadata q).isSome) :
    ((WindowsGUIDProfile.guidLoop cfg w pd gs s).repo.metadata q).isSome :=
  foldSteps_inv _ (fun t => ((t.repo.metadata q).isSome : Prop))
    (fun g t ht => win_step_metadata_mono cfg w pd g t q ht) gs s h

theorem win_pair_metadata_mono (cfg : WindowsGUIDProfileArgs) (w : World)
    (gf : List (String × List String)) (s : BOut) (q : String)
    (h : (s.repo.metadata q).isSome) :
    ((WindowsGUIDProfile.pairLoop cfg w gf s).repo.metadata q).isSome :=
  foldSteps_inv _ (fun t => ((t.repo.metadata q).isSome : Prop))
    (fun pr t ht => win_guidLoop_metadata_mono cfg w pr.1 pr.2 t q ht) gf s h

theorem win_guidLoop_ensures (cfg : WindowsGUIDProfileArgs) (w : World) (pd : String)
    (gs : List String) (s : BOut)
    (h : (WindowsGUIDProfile.guidLoop cfg w pd gs s).err = none) :
    ∀ g ∈ gs, (((WindowsGUIDProfile.guidLoop cfg w pd gs s).repo.metadata
      (cfg.profile_name ++ "/" ++ g)).isSome) :=
  foldSteps_all _ (fun g t => ((t.repo.metadata (cfg.profile_name ++ "/" ++ g)).isSome : Prop))
    (fun g t ht => win_step_sticky cfg w pd g t ht)
    (fun g t ht => win_step_ensures cfg w pd g t ht)
    (fun g g' t ht => win_step_metadata_mono cfg w pd g' t _ ht) gs s h

theorem win_pair_ensures (cfg : WindowsGUIDProfileArgs) (w : World)
    (gf : List (String × List String)) (s : BOut)
    (h : (WindowsGUIDProfile.pairLoop cfg w gf s).err = none) :
    ∀ pr ∈ gf, ∀ g ∈ pr.2, (((WindowsGUIDProfile.pairLoop cfg w gf s).repo.metadata
      (cfg.profile_name ++ "/" ++ g)).isSome) :=
 by
  have := foldSteps_all (α := String × List String)
    (fun pr t => WindowsGUIDProfile.guidLoop cfg w pr.1 pr.2 t)
    (fun pr t => ∀ g ∈ pr.2,
      ((t.repo.metadata (cfg.profile_name ++ "/" ++ g)).isSome : Prop))
    (fun pr t ht => win_guidLoop_sticky cfg w pr.1 pr.2 t ht)
    (fun pr t ht => win_guidLoop_ensures cfg w pr.1 pr.2 t ht)
    (fun pr pr2 t ht g hg => win_guidLoop_metadata_mono cfg w pr2.1 pr2.2 t _ (ht g hg))
    gf s
  exact this h

theorem win_pair_noop (cfg : WindowsGUIDProfileArgs) (w : World)
    (gf : List (String × List String)) (s : BOut) (he : s.err = none)
    (h : ∀ pr ∈ gf, ∀ g ∈ pr.2,
      ((s.repo.metadata (cfg.profile_name ++ "/" ++ g)).isSome : Prop)) :
    WindowsGUIDProfile.pairLoop cfg w gf s = s :=
  foldSteps_noop _ gf s (fun pr hpr =>
    foldSteps_noop _ pr.2 s (fun g hg =>
      win_step_skip cfg w pr.1 g s (by simp [he]) (h pr hpr g hg)))

theorem win_loop_decode (cfg : WindowsGUIDProfileArgs) (w : World) (r : Repo)
    (h : (WindowsGUIDProfile.loop cfg w r).err = none) :
    ∃ v gf, r.getData cfg.guids = some v ∧ decodeGuidFile v = some gf ∧
      WindowsGUIDProfile.loop cfg w r
        = WindowsGUIDProfile.pairLoop cfg w gf ((BOut.start r).read cfg.guids) := by
  cases hv : r.getData cfg.guids with
  | none =>
      unfold WindowsGUIDProfile.loop at h
      simp only [hv] at h
      simp [BOut.start, BOut.read, BOut.fail] at h
  | some v =>
      cases hgf : decodeGuidFile v with
      | none =>
          unfold WindowsGUIDProfile.loop at h
          simp only [hv, hgf] at h
          simp [BOut.start, BOut.read, BOut.fail] at h
      | some gf =>
          refine ⟨v, gf, rfl, hgf, ?_⟩
          unfold WindowsGUIDProfile.loop
          simp only [hv, hgf]

/-! ## Step facts for `LinuxProfile` -/

theorem lin_step_sticky (w : World) (f : String) (s : BOut) (h : s.err.isSome) :
    LinuxProfile.step w f s = s := by
  unfold LinuxProfile.step
  rw [if_pos h]

theorem lin_step_nomatch (w : World) (f : String) (s : BOut)
    (h : LinuxProfile.matchesRaw f = false) : LinuxProfile.step w f s = s := by
  unfold LinuxProfile.step
  by_cases he : s.err.isSome
  · rw [if_pos he]
  · rw [if_neg he, h]
    simp

theorem lin_step_skip (w : World) (f : String) (s : BOut)
    (he : ¬ s.err.isSome)
    (hm : (s.repo.metadata (LinuxProfile.deriveId f)).isSome) :
    LinuxProfile.step w f s = s := by
  unfold LinuxProfile.step
  rw [if_neg he]
  by_cases hmt : LinuxProfile.matchesRaw f
  · rw [if_pos hmt, if_pos hm]
  · rw [if_neg hmt]

theorem lin_step_metadata_mono (w : World) (f : String) (s : BOut) (q : String)
    (h : (s.repo.metadata q).isSome) :
    ((LinuxProfile.step w f s).repo.metadata q).isSome := by
  unfold LinuxProfile.step
  by_cases he : s.err.isSome
  · rw [if_pos he]; exact h
  · rw [if_neg he]
    by_cases hmt : LinuxProfile.matchesRaw f
    · rw [if_pos hmt]
      by_cases hm : (s.repo.metadata (LinuxProfile.deriveId f)).isSome
      · rw [if_pos hm]; exact h
      · rw [if_neg hm]
        split
        · simpa [BOut.fail] using h
        · split
          · simpa using h
          · simpa [BOut.write] using metadata_isSome_storeData _ _ _ _ h
    · rw [if_neg hmt]; exact h

theorem lin_step_ensures (w : World) (f : String) (s : BOut)
    (h : (LinuxProfile.step w f s).err = none) :
    LinuxProfile.matchesRaw f = true →
      (((LinuxProfile.step w f s).repo.metadata (LinuxProfile.deriveId f)).isSome) := by
  intro hmt
  by_cases he : s.err.isSome
  · rw [lin_step_sticky w f s he] at h
    rw [h] at he
    cases he
  · by_cases hm : (s.repo.metadata (LinuxProfile.deriveId f)).isSome
    · rw [lin_step_skip w f s he hm]
      exact hm
    · unfold LinuxProfile.step at h ⊢
      rw [if_neg he, if_pos hmt] at h ⊢
      rw [if_neg hm] at h ⊢
      revert h
      split
      · intro h; simp [BOut.fail] at h
      · split
        · intro h; simp at h
        · intro _
          simp [BOut.write, metadata_storeData]

theorem lin_step_listFiles (w : World) (f : String) (s : BOut) (q : String)
    (h : q ∈ (LinuxProfile.step w f s).repo.listFiles) :
    q ∈ s.repo.listFiles ∨ LinuxProfile.matchesRaw q = false := by
  revert h
  unfold LinuxProfile.step
  by_cases he : s.err.isSome
  · rw [if_pos he]; exact Or.inl
  · rw [if_neg he]
    by_cases hmt : LinuxProfile.matchesRaw f
    · rw [if_pos hmt]
      by_cases hm : (s.repo.metadata (LinuxProfile.deriveId f)).isSome
      · rw [if_pos hm]; exact Or.inl
      · rw [if_neg hm]
        split
        · intro h; exact Or.inl (by simpa [BOut.fail] using h)
        · split
          · intro h; exact Or.inl (by simpa using h)
          · intro h
            simp only [BOut.write] at h
            rcases mem_listFiles_storeData _ _ _ _ (by simpa using h) with h1 | h1
            · exact Or.inl h1
            · right
              rw [h1]
              exact matchesRaw_deriveId_false f
    · rw [if_neg hmt]; exact Or.inl

/-! ## Loop facts for `LinuxProfile` -/

theorem lin_scan_sticky (w : World) (L : List String) (s : BOut) (h : s.err.isSome) :
    LinuxProfile.scan w L s = s :=
  foldSteps_sticky _ (fun f t ht => lin_step_sticky w f t ht) L s h

theorem lin_scan_metadata_mono (w : World) (L : List String) (s : BOut) (q : String)
    (h : (s.repo.metadata q).isSome) :
    ((LinuxProfile.scan w L s).repo.metadata q).isSome :=
  foldSteps_inv _ (fun t => ((t.repo.metadata q).isSome : Prop))
    (fun f t ht => lin_step_metadata_mono w f t q ht) L s h

theorem lin_scan_ensures (w : World) (L : List String) (s : BOut)
    (h : (LinuxProfile.scan w L s).err = none) :
    ∀ f ∈ L, LinuxProfile.matchesRaw f = true →
      (((LinuxProfile.scan w L s).repo.metadata (LinuxProfile.deriveId f)).isSome) :=
  foldSteps_all _
    (fun f t => (LinuxProfile.matchesRaw f = true →
      ((t.repo.metadata (LinuxProfile.deriveId f)).isSome : Prop)))
    (fun f t ht => lin_step_sticky w f t ht)
    (fun f t ht => lin_step_ensures w f t ht)
    (fun f f2 t ht hmt => lin_step_metadata_mono w f2 t _ (ht hmt)) L s h

theorem lin_scan_noop (w : World) (L : List String) (s : BOut) (he : s.err = none)
    (h : ∀ f ∈ L, LinuxProfile.matchesRaw f = false ∨
      ((s.repo.metadata (LinuxProfile.deriveId f)).isSome : Prop)) :
    LinuxProfile.scan w L s = s :=
  foldSteps_noop _ L s (fun f hf => by
    rcases h f hf with h1 | h1
    · exact lin_step_nomatch w f s h1
    · exact lin_step_skip w f s (by simp [he]) h1)

theorem lin_scan_listFiles (w : World) (L : List String) (s : BOut) (r0 : Repo)
    (h0 : ∀ q ∈ s.repo.listFiles, q ∈ r0.listFiles ∨ LinuxProfile.matchesRaw q = false) :
    ∀ q ∈ (LinuxProfile.scan w L s).repo.listFiles,
      q ∈ r0.listFiles ∨ LinuxProfile.matchesRaw q = false :=
  foldSteps_inv _
    (fun t => ∀ q ∈ t.repo.listFiles, q ∈ r0.listFiles ∨ LinuxProfile.matchesRaw q = false)
    (fun f t ht q hq => by
      rcases lin_step_listFiles w f t q hq with h1 | h1
      · exact ht q h1
      · exact Or.inr h1) L s h0

/-! ## Loop facts for `OSXProfile` and further repository lemmas -/

theorem osx_loop_metadata_mono (cfg : OSXProfileArgs) (srcs : List String) (s : BOut)
    (q : String) (h : (s.repo.metadata q).isSome) :
    ((OSXProfile.loop cfg srcs s).repo.metadata q).isSome :=
  foldSteps_inv _ (fun t => ((t.repo.metadata q).isSome : Prop))
    (fun x t ht => osx_step_metadata_mono cfg x t q ht) srcs s h

theorem osx_loop_ensures (cfg : OSXProfileArgs) (srcs : List String) (s : BOut)
    (h : (OSXProfile.loop cfg srcs s).err = none) :
    ∀ src ∈ srcs,
      (((OSXProfile.loop cfg srcs s).repo.metadata ("OSX/" ++ lastSegment src)).isSome) :=
  foldSteps_all _
    (fun src t => ((t.repo.metadata ("OSX/" ++ lastSegment src)).isSome : Prop))
    (fun x t ht => osx_step_sticky cfg x t ht)
    (fun x t ht => osx_step_ensures cfg x t ht)
    (fun x y t ht => osx_step_metadata_mono cfg y t _ ht) srcs s h

theorem osx_loop_noop (cfg : OSXProfileArgs) (srcs : List String) (s : BOut)
    (he : s.err = none)
    (h : ∀ src ∈ srcs, ((s.repo.metadata ("OSX/" ++ lastSegment src)).isSome : Prop)) :
    OSXProfile.loop cfg srcs s = s :=
  foldSteps_noop _ srcs s (fun src hs => osx_step_skip cfg src s (by simp [he]) (h src hs))

theorem BuildIndex_listFiles (pn : String) (idx : Option String) (w : World)
    (s : BOut) (q : String) (h : q ∈ (BuildIndex pn idx w s).repo.listFiles) :
    q ∈ s.repo.listFiles ∨ q = pn ++ "/index" := by
  revert h
  unfold BuildIndex
  split
  · exact Or.inl
  · split
    · exact Or.inl
    · exact fun h => mem_listFiles_storeData _ _ _ _ h

theorem indexTriggerAD_listFiles (pn : String) (idx : Option String) (force : Bool)
    (w : World) (s : BOut) (q : String)
    (h : q ∈ (indexTriggerAD pn idx force w s).repo.listFiles) :
    q ∈ s.repo.listFiles ∨ q = pn ++ "/index" := by
  revert h
  unfold indexTriggerAD
  split
  · exact Or.inl
  · split
    · exact BuildIndex_listFiles pn idx w s q
    · exact Or.inl

/-- A `lookupKey` hit is a member of the association list. -/
theorem lookupKey_mem {α : Type} (l : List (String × α)) (k : String) (v : α)
    (h : lookupKey l k = some v) : (k, v) ∈ l := by
  induction l with
  | nil => cases h
  | cons hd tl ih =>
      obtain ⟨k', v'⟩ := hd
      by_cases hk : k' = k
      · subst hk
        unfold lookupKey at h
        rw [if_pos rfl] at h
        injection h with h
        rw [h]
        exact List.mem_cons_self _ _
      · unfold lookupKey at h
        rw [if_neg hk] at h
        exact List.mem_cons_of_mem _ (ih h)

/-- In a well-formed repository every metadata timestamp is strictly in
the past. -/
theorem WF_metadata_lt (r : Repo) (p : String) (t : Nat)
    (hwf : r.WF) (h : r.metadata p = some t) : t < r.clock := by
  unfold Repo.metadata at h
  cases he : lookupKey r.entries p with
  | none => rw [he] at h; cases h
  | some e =>
      rw [he] at h
      injection h with h
      have := hwf (p, e) (lookupKey_mem _ _ _ he)
      rw [h] at this
      exact this

/-! ## Second-build no-op helpers, one per variant -/

/-- After a successful `CopyAndTransform.Build`, a second run on the
resulting repository takes the fresh branch and does nothing. -/
theorem copy_build_second (cfg : CopyAndTransformArgs) (r : Repo) (sB : Nat)
    (hwf : r.WF) (hs : r.metadata cfg.source = some sB)
    (h1 : (CopyAndTransform.Build cfg r).err = none) :
    CopyAndTransform.Build cfg (CopyAndTransform.Build cfg r).repo
      = BOut.start (CopyAndTransform.Build cfg r).repo := by
  have hstored : ∀ v : Val,
      CopyAndTransform.Build cfg (r.storeData cfg.profile_name v)
        = BOut.start (r.storeData cfg.profile_name v) := by
    intro v
    have hpm1 : (r.storeData cfg.profile_name v).metadata cfg.profile_name
        = some r.clock := by
      rw [metadata_storeData, if_pos rfl]
    by_cases hsp : cfg.source = cfg.profile_name
    · have hsm1 : (r.storeData cfg.profile_name v).metadata cfg.source
          = some r.clock := by
        rw [hsp, metadata_storeData, if_pos rfl]
      unfold CopyAndTransform.Build
      rw [hpm1, hsm1]
      simp only [if_neg (lt_irrefl r.clock)]
    · have hsm1 : (r.storeData cfg.profile_name v).metadata cfg.source = some sB := by
        rw [metadata_storeData, if_neg hsp, hs]
      unfold CopyAndTransform.Build
      rw [hpm1, hsm1]
      simp only [if_neg (Nat.not_lt.mpr (le_of_lt (WF_metadata_lt r cfg.source sB hwf hs)))]
  cases hpm : r.metadata cfg.profile_name with
  | none =>
      cases hd : r.getData cfg.source with
      | none =>
          exfalso
          unfold CopyAndTransform.Build at h1
          simp only [hpm, hd] at h1
          simp [BOut.start, BOut.read, BOut.fail] at h1
      | some d =>
          cases ht : TransformProfile cfg.transforms d with
          | error e =>
              exfalso
              unfold CopyAndTransform.Build at h1
              simp only [hpm, hd, ht] at h1
              simp [BOut.start, BOut.read, BOut.fail] at h1
          | ok d2 =>
              have hb : (CopyAndTransform.Build cfg r).repo
                  = r.storeData cfg.profile_name (PPrint d2) := by
                unfold CopyAndTransform.Build
                simp only [hpm, hd, ht]
                simp [BOut.start, BOut.read, BOut.write]
              rw [hb]
              exact hstored (PPrint d2)
  | some pt =>
      by_cases hlt : pt < sB
      · cases hd : r.getData cfg.source with
        | none =>
            exfalso
            unfold CopyAndTransform.Build at h1
            simp only [hpm, hs, if_pos hlt, hd] at h1
            simp [BOut.start, BOut.read, BOut.fail] at h1
        | some d =>
            cases ht : TransformProfile cfg.transforms d with
            | error e =>
                exfalso
                unfold CopyAndTransform.Build at h1
                simp only [hpm, hs, if_pos hlt, hd, ht] at h1
                simp [BOut.start, BOut.read, BOut.fail] at h1
            | ok d2 =>
                have hb : (CopyAndTransform.Build cfg r).repo
                    = r.storeData cfg.profile_name (PPrint d2) := by
                  unfold CopyAndTransform.Build
                  simp only [hpm, hs, if_pos hlt, hd, ht]
                  simp [BOut.start, BOut.read, BOut.write]
                rw [hb]
                exact hstored (PPrint d2)
      · have hb : CopyAndTransform.Build cfg r = BOut.start r := by
          unfold CopyAndTransform.Build
          simp only [hpm, hs, if_neg hlt]
        rw [hb]
        show CopyAndTransform.Build cfg r = BOut.start r
        rw [hb]

/-- After a successful `OSXProfile.Build`, a second run on the resulting
repository skips every source and does not rebuild the index. -/
theorem osx_build_second (cfg : OSXProfileArgs) (w : World) (r : Repo)
    (h1 : (OSXProfile.Build cfg w r).err = none) :
    OSXProfile.Build cfg w (OSXProfile.Build cfg w r).repo
      = BOut.start (OSXProfile.Build cfg w r).repo := by
  have hloop1 : (OSXProfile.loop cfg cfg.sources (BOut.start r)).err = none :=
    indexTriggerC_err_back _ _ _ _ h1
  have hens := osx_loop_ensures cfg cfg.sources (BOut.start r) hloop1
  have hens1 : ∀ src ∈ cfg.sources,
      (((OSXProfile.Build cfg w r).repo.metadata ("OSX/" ++ lastSegment src)).isSome) :=
    fun src hsrc => indexTriggerC_metadata_mono _ _ _ _ _ (hens src hsrc)
  show indexTriggerC cfg.profile_name cfg.index w
      (OSXProfile.loop cfg cfg.sources (BOut.start (OSXProfile.Build cfg w r).repo))
    = BOut.start (OSXProfile.Build cfg w r).repo
  rw [osx_loop_noop cfg cfg.sources (BOut.start (OSXProfile.Build cfg w r).repo) rfl
    (fun src hsrc => hens1 src hsrc)]
  exact indexTriggerC_skip _ _ _ _ rfl

/-- After a successful `WindowsGUIDProfile.Build` whose guid file is
unchanged, a second run with the force flag off skips every guid and
does not rebuild the index. -/
theorem win_build_second (cfg : WindowsGUIDProfileArgs) (w : World) (r : Repo)
    (hforce : cfg.force_build_index = false)
    (h1 : (WindowsGUIDProfile.Build cfg w r).err = none)
    (hsrc : (WindowsGUIDProfile.Build cfg w r).repo.getData cfg.guids
      = r.getData cfg.guids) :
    WindowsGUIDProfile.Build cfg w (WindowsGUIDProfile.Build cfg w r).repo
      = (BOut.start (WindowsGUIDProfile.Build cfg w r).repo).read cfg.guids := by
  have hloop1 : (WindowsGUIDProfile.loop cfg w r).err = none :=
    indexTriggerAD_err_back _ _ _ _ _ h1
  obtain ⟨v, gf, hv, hgf, hloopeq⟩ := win_loop_decode cfg w r hloop1
  rw [hloopeq] at hloop1
  have hens := win_pair_ensures cfg w gf ((BOut.start r).read cfg.guids) hloop1
  have hens1 : ∀ pr ∈ gf, ∀ g ∈ pr.2,
      (((WindowsGUIDProfile.Build cfg w r).repo.metadata
        (cfg.profile_name ++ "/" ++ g)).isSome) := by
    intro pr hpr g hg
    have h2 : ((WindowsGUIDProfile.loop cfg w r).repo.metadata
        (cfg.profile_name ++ "/" ++ g)).isSome := by
      rw [hloopeq]
      exact hens pr hpr g hg
    exact indexTriggerAD_metadata_mono _ _ _ _ _ _ h2
  have hget1 : (WindowsGUIDProfile.Build cfg w r).repo.getData cfg.guids = some v := by
    rw [hsrc, hv]
  show indexTriggerAD cfg.profile_name cfg.index cfg.force_build_index w
      (WindowsGUIDProfile.loop cfg w (WindowsGUIDProfile.Build cfg w r).repo)
    = (BOut.start (WindowsGUIDProfile.Build cfg w r).repo).read cfg.guids
  have hloop2 : WindowsGUIDProfile.loop cfg w (WindowsGUIDProfile.Build cfg w r).repo
      = (BOut.start (WindowsGUIDProfile.Build cfg w r).repo).read cfg.guids := by
    unfold WindowsGUIDProfile.loop
    simp only [hget1, hgf]
    exact win_pair_noop cfg w gf _ rfl (fun pr hpr g hg => hens1 pr hpr g hg)
  rw [hloop2, hforce]
  exact indexTriggerAD_skip _ _ _ _ rfl

/-- After a successful `LinuxProfile.Build`, a second run with the force
flag off skips everything: every original matching archive has its
profile, and every path added by the first run fails the scan filter. -/
theorem lin_build_second (cfg : LinuxProfileArgs) (w : World) (r : Repo)
    (hforce : cfg.force_build_index = false)
    (h1 : (LinuxProfile.Build cfg w r).err = none) :
    LinuxProfile.Build cfg w (LinuxProfile.Build cfg w r).repo
      = BOut.start (LinuxProfile.Build cfg w r).repo := by
  have hscan1 : (LinuxProfile.scan w r.listFiles (BOut.start r)).err = none :=
    indexTriggerAD_err_back _ _ _ _ _ h1
  have hens := lin_scan_ensures w r.listFiles (BOut.start r) hscan1
  have hens1 : ∀ f ∈ r.listFiles, LinuxProfile.matchesRaw f = true →
      (((LinuxProfile.Build cfg w r).repo.metadata (LinuxProfile.deriveId f)).isSome) :=
    fun f hf hmt => indexTriggerAD_metadata_mono _ _ _ _ _ _ (hens f hf hmt)
  have hlist : ∀ q ∈ (LinuxProfile.Build cfg w r).repo.listFiles,
      q ∈ r.listFiles ∨ LinuxProfile.matchesRaw q = false := by
    intro q hq
    rcases indexTriggerAD_listFiles _ _ _ _ _ q hq with h2 | h2
    · exact lin_scan_listFiles w r.listFiles (BOut.start r) r (fun p hp => Or.inl hp) q h2
    · right
      rw [h2]
      exact matchesRaw_index_false cfg.profile_name
  show indexTriggerAD cfg.profile_name cfg.index cfg.force_build_index w
      (LinuxProfile.scan w (LinuxProfile.Build cfg w r).repo.listFiles
        (BOut.start (LinuxProfile.Build cfg w r).repo))
    = BOut.start (LinuxProfile.Build cfg w r).repo
  rw [lin_scan_noop w _ _ rfl (fun f hf => by
    rcases hlist f hf with h2 | h2
    · by_cases hmt : LinuxProfile.matchesRaw f
      · exact Or.inr (hens1 f h2 hmt)
      · exact Or.inl (by simpa using hmt)
    · exact Or.inl h2)]
  rw [hforce]
  exact indexTriggerAD_skip _ _ _ _ rfl

/-- A world whose Linux converter always succeeds. -/
def okConvWorld : World :=
  ⟨fun _ _ => .str "raw", fun _ v => v, fun v => v, fun _ => some (.obj [])⟩

/-- A Windows target with the force flag set and an index spec. -/
def winCfgForce : WindowsGUIDProfileArgs :=
  ⟨"win10", "guids.json", none, [], some "idx/spec", true⟩

/-- A repository holding the (empty) guid file and the index spec. -/
def winRepoForce : Repo :=
  ⟨[("guids.json", ⟨Val.obj [], 0⟩), ("idx/spec", ⟨Val.str "spec", 1⟩)], 2⟩

/-- C1 counterexample: with `force_build_index = true`, the second
`Build()` of a Variant A target — with the sources untouched between the
two calls — still performs a `StoreData` (it rebuilds and stores the
index), refuting the claim that the second invocation performs zero
store-write calls. -/
theorem C1_counterexample_force_index_rewrites :
    (WindowsGUIDProfile.Build winCfgForce failConvWorld
        ((WindowsGUIDProfile.Build winCfgForce failConvWorld winRepoForce).repo)).writes
      = [("win10/index", Val.str "spec")]
    ∧ ((WindowsGUIDProfile.Build winCfgForce failConvWorld winRepoForce).repo).getData
        "guids.json" = winRepoForce.getData "guids.json"
    ∧ (WindowsGUIDProfile.Build winCfgForce failConvWorld winRepoForce).err = none
    ∧ (WindowsGUIDProfile.Build winCfgForce failConvWorld
        ((WindowsGUIDProfile.Build winCfgForce failConvWorld winRepoForce).repo)).changed
      = false :=
  ⟨rfl, rfl, rfl, rfl⟩

/-- C1 (amended): with `force_build_index` off, a second `Build()` with
no change to the sources performs zero store-write calls and leaves the
internal `changed_files` flag false, for every builder variant.  The
hypotheses say: the first build succeeded; for Variant B the source
exists and the repository clock is ahead of its timestamps; for Variant
A the guid file is the same at the second call (no change to sources). -/
theorem C1_second_build_writes_nothing
    (cfgB : CopyAndTransformArgs) (rB : Repo) (sB : Nat)
    (hBwf : rB.WF)
    (hBs : rB.metadata cfgB.source = some sB)
    (hB1 : (CopyAndTransform.Build cfgB rB).err = none)
    (cfgC : OSXProfileArgs) (wC : World) (rC : Repo)
    (hC1 : (OSXProfile.Build cfgC wC rC).err = none)
    (cfgA : WindowsGUIDProfileArgs) (wA : World) (rA : Repo)
    (hAforce : cfgA.force_build_index = false)
    (hA1 : (WindowsGUIDProfile.Build cfgA wA rA).err = none)
    (hAsrc : (WindowsGUIDProfile.Build cfgA wA rA).repo.getData cfgA.guids
      = rA.getData cfgA.guids)
    (cfgD : LinuxProfileArgs) (wD : World) (rD : Repo)
    (hDforce : cfgD.force_build_index = false)
    (hD1 : (LinuxProfile.Build cfgD wD rD).err = none) :
    ((CopyAndTransform.Build cfgB (CopyAndTransform.Build cfgB rB).repo).writes = []
      ∧ (CopyAndTransform.Build cfgB (CopyAndTransform.Build cfgB rB).repo).changed = false
      ∧ (CopyAndTransform.Build cfgB (CopyAndTransform.Build cfgB rB).repo).err = none)
    ∧ ((OSXProfile.Build cfgC wC (OSXProfile.Build cfgC wC rC).repo).writes = []
      ∧ (OSXProfile.Build cfgC wC (OSXProfile.Build cfgC wC rC).repo).changed = false
      ∧ (OSXProfile.Build cfgC wC (OSXProfile.Build cfgC wC rC).repo).err = none)
    ∧ ((WindowsGUIDProfile.Build cfgA wA
          (WindowsGUIDProfile.Build cfgA wA rA).repo).writes = []
      ∧ (WindowsGUIDProfile.Build cfgA wA
          (WindowsGUIDProfile.Build cfgA wA rA).repo).changed = false
      ∧ (WindowsGUIDProfile.Build cfgA wA
          (WindowsGUIDProfile.Build cfgA wA rA).repo).err = none)
    ∧ ((LinuxProfile.Build cfgD wD (LinuxProfile.Build cfgD wD rD).repo).writes = []
      ∧ (LinuxProfile.Build cfgD wD (LinuxProfile.Build cfgD wD rD).repo).changed = false
      ∧ (LinuxProfile.Build cfgD wD (LinuxProfile.Build cfgD wD rD).repo).err = none) := by
  refine ⟨?_, ?_, ?_, ?_⟩
  · rw [copy_build_second cfgB rB sB hBwf hBs hB1]
    exact ⟨rfl, rfl, rfl⟩
  · rw [osx_build_second cfgC wC rC hC1]
    exact ⟨rfl, rfl, rfl⟩
  · rw [win_build_second cfgA wA rA hAforce hA1 hAsrc]
    exact ⟨rfl, rfl, rfl⟩
  · rw [lin_build_second cfgD wD rD hDforce hD1]
    exact ⟨rfl, rfl, rfl⟩

/-- Concrete targets for the C1 witness. -/
def c1CfgB : CopyAndTransformArgs := ⟨"winxp", "src/winxp", []⟩

def c1RB : Repo := ⟨[("src/winxp", ⟨Val.obj [], 0⟩)], 1⟩

def c1CfgC : OSXProfileArgs := ⟨"OSXProfiles", ["osx/10.9"], [], none, false⟩

def c1RC : Repo := ⟨[("osx/10.9", ⟨Val.obj [], 0⟩)], 1⟩

def c1CfgA : WindowsGUIDProfileArgs := ⟨"win", "g.json", none, [], none, false⟩

def c1RA : Repo := ⟨[("g.json", ⟨Val.obj [("k.pdb", Val.list [Val.str "G1"])], 0⟩)], 1⟩

def c1CfgD : LinuxProfileArgs := ⟨"Linux", none, false⟩

def c1RD : Repo := ⟨[("src/Linux/4.4/test.zip", ⟨Val.str "z", 0⟩)], 1⟩

/-- Witness for C1 (amended) at concrete targets of each variant, each
of which really rebuilds something in its first run. -/
theorem C1_second_build_writes_nothing_witness :
    c1RB.WF
    ∧ c1RB.metadata c1CfgB.source = some 0
    ∧ (CopyAndTransform.Build c1CfgB c1RB).err = none
    ∧ (OSXProfile.Build c1CfgC okConvWorld c1RC).err = none
    ∧ c1CfgA.force_build_index = false
    ∧ (WindowsGUIDProfile.Build c1CfgA okConvWorld c1RA).err = none
    ∧ (WindowsGUIDProfile.Build c1CfgA okConvWorld c1RA).repo.getData c1CfgA.guids
      = c1RA.getData c1CfgA.guids
    ∧ c1CfgD.force_build_index = false
    ∧ (LinuxProfile.Build c1CfgD okConvWorld c1RD).err = none
    ∧ (CopyAndTransform.Build c1CfgB (CopyAndTransform.Build c1CfgB c1RB).repo).writes = []
    ∧ (OSXProfile.Build c1CfgC okConvWorld
        (OSXProfile.Build c1CfgC okConvWorld c1RC).repo).writes = []
    ∧ (WindowsGUIDProfile.Build c1CfgA okConvWorld
        (WindowsGUIDProfile.Build c1CfgA okConvWorld c1RA).repo).writes = []
    ∧ (LinuxProfile.Build c1CfgD okConvWorld
        (LinuxProfile.Build c1CfgD okConvWorld c1RD).repo).writes = []
    ∧ (CopyAndTransform.Build c1CfgB (CopyAndTransform.Build c1CfgB c1RB).repo).changed
      = false
    ∧ (WindowsGUIDProfile.Build c1CfgA okConvWorld
        (WindowsGUIDProfile.Build c1CfgA okConvWorld c1RA).repo).changed = false := by
  have hwf : c1RB.WF := by
    intro pr hpr
    simp only [c1RB, List.mem_singleton] at hpr
    rw [hpr]
    decide
  have h := C1_second_build_writes_nothing c1CfgB c1RB 0 hwf rfl rfl
    c1CfgC okConvWorld c1RC rfl
    c1CfgA okConvWorld c1RA rfl rfl rfl
    c1CfgD okConvWorld c1RD rfl rfl
  exact ⟨hwf, rfl, rfl, rfl, rfl, rfl, rfl, rfl, rfl,
    h.1.1, h.2.1.1, h.2.2.1.1, h.2.2.2.1, h.1.2.1, h.2.2.1.2.1⟩

/-! ## The Python return value of every `Build` method -/

theorem osx_step_ret (cfg : OSXProfileArgs) (src : String) (s : BOut) :
    (OSXProfile.step cfg src s).ret = s.ret := by
  unfold OSXProfile.step
  split
  · rfl
  · split
    · rfl
    · split
      · simp [BOut.read, BOut.fail]
      · split
        · simp [BOut.read, BOut.fail]
        · simp [BOut.read, BOut.write]

theorem ParsePDB_ret (cfg : WindowsGUIDProfileArgs) (w : World) (g pd : String)
    (s : BOut) : (WindowsGUIDProfile.ParsePDB cfg w g pd s).ret = s.ret := by
  unfold WindowsGUIDProfile.ParsePDB
  split
  · simp [BOut.read, BOut.fail]
  · split
    · simp [BOut.read]
    · simp [BOut.read, BOut.write]

theorem win_step_ret (cfg : WindowsGUIDProfileArgs) (w : World) (pd g : String)
    (s : BOut) : (WindowsGUIDProfile.step cfg w pd g s).ret = s.ret := by
  by_cases he : s.err.isSome
  · rw [win_step_sticky cfg w pd g s he]
  · by_cases hm : (s.repo.metadata (cfg.profile_name ++ "/" ++ g)).isSome
    · rw [win_step_skip cfg w pd g s he hm]
    · rw [win_step_process cfg w pd g s he hm, ParsePDB_ret]
      split
      · rfl
      · rw [FetchPDB_fields]

theorem lin_step_ret (w : World) (f : String) (s : BOut) :
    (LinuxProfile.step w f s).ret = s.ret := by
  unfold LinuxProfile.step
  split
  · rfl
  · split
    · split
      · rfl
      · split
        · simp [BOut.fail]
        · split
          · rfl
          · simp [BOut.write]
    · rfl

theorem BuildIndex_ret (pn : String) (idx : Option String) (w : World) (s : BOut) :
    (BuildIndex pn idx w s).ret = s.ret := by
  unfold BuildIndex
  split
  · rfl
  · split <;> rfl

theorem indexTriggerAD_ret (pn : String) (idx : Option String) (force : Bool)
    (w : World) (s : BOut) : (indexTriggerAD pn idx force w s).ret = s.ret := by
  unfold indexTriggerAD
  split
  · rfl
  · split
    · exact BuildIndex_ret pn idx w s
    · rfl

theorem indexTriggerC_ret (pn : String) (idx : Option String)
    (w : World) (s : BOut) : (indexTriggerC pn idx w s).ret = s.ret := by
  unfold indexTriggerC
  split
  · rfl
  · split
    · exact BuildIndex_ret pn idx w s
    · rfl

theorem copy_build_ret (cfg : CopyAndTransformArgs) (r : Repo) :
    (CopyAndTransform.Build cfg r).ret = none := by
  unfold CopyAndTransform.Build
  cases hpm : r.metadata cfg.profile_name with
  | none =>
      simp only [hpm]
      cases hd : r.getData cfg.source with
      | none => simp [hd, BOut.start, BOut.read, BOut.fail]
      | some d =>
          cases ht : TransformProfile cfg.transforms d with
          | error e => simp [hd, ht, BOut.start, BOut.read, BOut.fail]
          | ok d2 => simp [hd, ht, BOut.start, BOut.read, BOut.write]
  | some pt =>
      cases hsm : r.metadata cfg.source with
      | none => simp [hpm, hsm, BOut.start, BOut.fail]
      | some st =>
          by_cases hlt : pt < st
          · simp only [hpm, hsm, if_pos hlt]
            cases hd : r.getData cfg.source with
            | none => simp [hd, BOut.start, BOut.read, BOut.fail]
            | some d =>
                cases ht : TransformProfile cfg.transforms d with
                | error e => simp [hd, ht, BOut.start, BOut.read, BOut.fail]
                | ok d2 => simp [hd, ht, BOut.start, BOut.read, BOut.write]
          · simp [hpm, hsm, if_neg hlt, BOut.start]

theorem osx_build_ret (cfg : OSXProfileArgs) (w : World) (r : Repo) :
    (OSXProfile.Build cfg w r).ret = none := by
  unfold OSXProfile.Build
  rw [indexTriggerC_ret]
  have h : ∀ (L : List String) (s : BOut), s.ret = none →
      (OSXProfile.loop cfg L s).ret = none :=
    fun L s hs => foldSteps_inv _ (fun t => t.ret = none)
      (fun x t ht => (osx_step_ret cfg x t).trans ht) L s hs
  exact h cfg.sources (BOut.start r) rfl

theorem win_build_ret (cfg : WindowsGUIDProfileArgs) (w : World) (r : Repo) :
    (WindowsGUIDProfile.Build cfg w r).ret = none := by
  unfold WindowsGUIDProfile.Build
  rw [indexTriggerAD_ret]
  have hpl : ∀ (gf : List (String × List String)) (s : BOut), s.ret = none →
      (WindowsGUIDProfile.pairLoop cfg w gf s).ret = none :=
    fun gf s hs => foldSteps_inv _ (fun t => t.ret = none)
      (fun pr t ht => foldSteps_inv _ (fun t2 => t2.ret = none)
        (fun g t2 ht2 => (win_step_ret cfg w pr.1 g t2).trans ht2) pr.2 t ht) gf s hs
  unfold WindowsGUIDProfile.loop
  cases hv : r.getData cfg.guids with
  | none => simp [hv, BOut.start, BOut.read, BOut.fail]
  | some v =>
      cases hgf : decodeGuidFile v with
      | none => simp [hv, hgf, BOut.start, BOut.read, BOut.fail]
      | some gf =>
          simp only [hv, hgf]
          exact hpl gf _ rfl

theorem lin_build_ret (cfg : LinuxProfileArgs) (w : World) (r : Repo) :
    (LinuxProfile.Build cfg w r).ret = none := by
  unfold LinuxProfile.Build
  rw [indexTriggerAD_ret]
  exact foldSteps_inv _ (fun t => t.ret = none)
    (fun f t ht => (lin_step_ret w f t).trans ht) r.listFiles (BOut.start r) rfl

/-- C4 counterexample: a successful `OSXProfile.Build` that did change
an artifact (`changed_files` internally true, a store write happened)
still returns `None`, not a boolean. -/
theorem C4_counterexample_build_returns_None :
    (OSXProfile.Build c1CfgC okConvWorld c1RC).err = none
    ∧ (OSXProfile.Build c1CfgC okConvWorld c1RC).changed = true
    ∧ (OSXProfile.Build c1CfgC okConvWorld c1RC).writes.map Prod.fst = ["OSX/10.9"]
    ∧ (OSXProfile.Build c1CfgC okConvWorld c1RC).ret = none :=
  ⟨rfl, rfl, rfl, rfl⟩

/-- C4 (amended): no `Build` method in the source has a return
statement, so every variant's `Build()` returns `None`; the change
indication lives only in the internal `changed_files` flag (Variants A,
C, D), which gates the index rebuild. -/
theorem C4_every_build_returns_None
    (cfgB : CopyAndTransformArgs) (rB : Repo)
    (cfgC : OSXProfileArgs) (wC : World) (rC : Repo)
    (cfgA : WindowsGUIDProfileArgs) (wA : World) (rA : Repo)
    (cfgD : LinuxProfileArgs) (wD : World) (rD : Repo) :
    (CopyAndTransform.Build cfgB rB).ret = none
    ∧ (OSXProfile.Build cfgC wC rC).ret = none
    ∧ (WindowsGUIDProfile.Build cfgA wA rA).ret = none
    ∧ (LinuxProfile.Build cfgD wD rD).ret = none :=
  ⟨copy_build_ret cfgB rB, osx_build_ret cfgC wC rC,
    win_build_ret cfgA wA rA, lin_build_ret cfgD wD rD⟩

/-! ## Unknown transform names abort the transform -/

/-- A transform spec containing any name other than `merge` makes
`TransformProfile` raise, whatever the payload. -/
theorem transform_bad (ts : List (String × Val))
    (h : ∃ pr ∈ ts, pr.1 ≠ "merge") (p : Val) :
    ∃ e, TransformProfile ts p = .error e := by
  induction ts generalizing p with
  | nil =>
      rcases h with ⟨pr, hpr, _⟩
      cases hpr
  | cons hd tl ih =>
      obtain ⟨name, args⟩ := hd
      by_cases hn : name = "merge"
      · subst hn
        have h2 : ∃ pr ∈ tl, pr.1 ≠ "merge" := by
          rcases h with ⟨pr, hpr, hne⟩
          rcases List.mem_cons.mp hpr with h1 | h1
          · exfalso
            rw [h1] at hne
            exact hne rfl
          · exact ⟨pr, h1, hne⟩
        unfold TransformProfile
        rw [if_pos rfl]
        cases p with
        | obj fields => exact ih h2 _
        | str s2 => exact ⟨_, rfl⟩
        | num n => exact ⟨_, rfl⟩
        | list l => exact ⟨_, rfl⟩
      · unfold TransformProfile
        rw [if_neg hn]
        exact ⟨_, rfl⟩

/-- On a dict payload the failure is precisely the
`Unknown transform <name>` RuntimeError, for a non-`merge` name of the
spec. -/
theorem transform_bad_obj (ts : List (String × Val))
    (h : ∃ pr ∈ ts, pr.1 ≠ "merge") (fields : List (String × Val)) :
    ∃ n, n ≠ "merge" ∧
      TransformProfile ts (.obj fields) = .error ("Unknown transform " ++ n) := by
  induction ts generalizing fields with
  | nil =>
      rcases h with ⟨pr, hpr, _⟩
      cases hpr
  | cons hd tl ih =>
      obtain ⟨name, args⟩ := hd
      by_cases hn : name = "merge"
      · subst hn
        have h2 : ∃ pr ∈ tl, pr.1 ≠ "merge" := by
          rcases h with ⟨pr, hpr, hne⟩
          rcases List.mem_cons.mp hpr with h1 | h1
          · exfalso
            rw [h1] at hne
            exact hne rfl
          · exact ⟨pr, h1, hne⟩
        unfold TransformProfile
        rw [if_pos rfl]
        exact ih h2 _
      · refine ⟨name, hn, ?_⟩
        unfold TransformProfile
        rw [if_neg hn]

theorem copy_build_bad_writes (cfg : CopyAndTransformArgs) (r : Repo)
    (hbad : ∃ pr ∈ cfg.transforms, pr.1 ≠ "merge") :
    (CopyAndTransform.Build cfg r).writes = [] := by
  unfold CopyAndTransform.Build
  cases hpm : r.metadata cfg.profile_name with
  | none =>
      simp only [hpm]
      cases hd : r.getData cfg.source with
      | none => simp [hd, BOut.start, BOut.read, BOut.fail]
      | some d =>
          obtain ⟨e, he⟩ := transform_bad cfg.transforms hbad d
          simp [hd, he, BOut.start, BOut.read, BOut.fail]
  | some pt =>
      cases hsm : r.metadata cfg.source with
      | none => simp [hpm, hsm, BOut.start, BOut.fail]
      | some st =>
          by_cases hlt : pt < st
          · simp only [hpm, hsm, if_pos hlt]
            cases hd : r.getData cfg.source with
            | none => simp [hd, BOut.start, BOut.read, BOut.fail]
            | some d =>
                obtain ⟨e, he⟩ := transform_bad cfg.transforms hbad d
                simp [hd, he, BOut.start, BOut.read, BOut.fail]
          · simp [hpm, hsm, if_neg hlt, BOut.start]

theorem copy_build_bad_err (cfg : CopyAndTransformArgs) (r : Repo)
    (fB : List (String × Val))
    (hbad : ∃ pr ∈ cfg.transforms, pr.1 ≠ "merge")
    (hpm : r.metadata cfg.profile_name = none)
    (hd : r.getData cfg.source = some (.obj fB)) :
    ∃ n, n ≠ "merge" ∧
      (CopyAndTransform.Build cfg r).err = some ("Unknown transform " ++ n) := by
  obtain ⟨n, hn, he⟩ := transform_bad_obj cfg.transforms hbad fB
  refine ⟨n, hn, ?_⟩
  unfold CopyAndTransform.Build
  simp [hpm, hd, he, BOut.start, BOut.read, BOut.fail]

theorem osx_step_bad (cfg : OSXProfileArgs) (src : String) (s : BOut)
    (hbad : ∃ pr ∈ cfg.transforms, pr.1 ≠ "merge") :
    (OSXProfile.step cfg src s).writes = s.writes
    ∧ (OSXProfile.step cfg src s).changed = s.changed := by
  unfold OSXProfile.step
  by_cases he : s.err.isSome
  · rw [if_pos he]
    exact ⟨rfl, rfl⟩
  · rw [if_neg he]
    by_cases hm : (s.repo.metadata ("OSX/" ++ lastSegment src)).isSome
    · rw [if_pos hm]
      exact ⟨rfl, rfl⟩
    · rw [if_neg hm]
      split
      · exact ⟨by simp [BOut.read, BOut.fail], by simp [BOut.read, BOut.fail]⟩
      · next d heqd =>
          split
          · exact ⟨by simp [BOut.read, BOut.fail], by simp [BOut.read, BOut.fail]⟩
          · next d2 heq =>
              obtain ⟨e, he2⟩ := transform_bad cfg.transforms hbad d
              rw [he2] at heq
              cases heq

theorem osx_build_bad_writes (cfg : OSXProfileArgs) (w : World) (r : Repo)
    (hbad : ∃ pr ∈ cfg.transforms, pr.1 ≠ "merge") :
    (OSXProfile.Build cfg w r).writes = [] := by
  have hloop : (OSXProfile.loop cfg cfg.sources (BOut.start r)).writes = []
      ∧ (OSXProfile.loop cfg cfg.sources (BOut.start r)).changed = false := by
    have := foldSteps_inv (OSXProfile.step cfg)
      (fun t => t.writes = [] ∧ t.changed = false)
      (fun x t ht => by
        obtain ⟨h1, h2⟩ := osx_step_bad cfg x t hbad
        exact ⟨h1.trans ht.1, h2.trans ht.2⟩)
      cfg.sources (BOut.start r) ⟨rfl, rfl⟩
    exact this
  show (indexTriggerC cfg.profile_name cfg.index w
    (OSXProfile.loop cfg cfg.sources (BOut.start r))).writes = []
  rw [indexTriggerC_skip _ _ _ _ hloop.2]
  exact hloop.1

theorem indexTriggerAD_sticky (pn : String) (idx : Option String) (force : Bool)
    (w : World) (s : BOut) (h : s.err.isSome) :
    indexTriggerAD pn idx force w s = s := by
  unfold indexTriggerAD
  rw [if_pos h]

theorem ParsePDB_bad (cfg : WindowsGUIDProfileArgs) (w : World) (g pd : String)
    (s : BOut) (hbad : ∃ pr ∈ cfg.transforms, pr.1 ≠ "merge") :
    (WindowsGUIDProfile.ParsePDB cfg w g pd s).writes = s.writes
    ∧ (WindowsGUIDProfile.ParsePDB cfg w g pd s).err.isSome
    ∧ (WindowsGUIDProfile.ParsePDB cfg w g pd s).changed = s.changed := by
  unfold WindowsGUIDProfile.ParsePDB
  split
  · exact ⟨by simp [BOut.read, BOut.fail], by simp [BOut.read, BOut.fail],
      by simp [BOut.read, BOut.fail]⟩
  · next data heqd =>
      split
      · exact ⟨by simp [BOut.read], by simp [BOut.read], by simp [BOut.read]⟩
      · next d2 heq =>
          obtain ⟨e, he2⟩ := transform_bad cfg.transforms hbad _
          rw [he2] at heq
          cases heq

theorem win_step_bad (cfg : WindowsGUIDProfileArgs) (w : World) (pd g : String)
    (s : BOut) (hbad : ∃ pr ∈ cfg.transforms, pr.1 ≠ "merge") :
    (∀ pr2 ∈ (WindowsGUIDProfile.step cfg w pd g s).writes,
        pr2 ∈ s.writes ∨ ∃ g2, pr2.1 = "src/pdb/" ++ g2 ++ ".pdb")
    ∧ ((s.changed = true → s.err.isSome) →
        ((WindowsGUIDProfile.step cfg w pd g s).changed = true →
          (WindowsGUIDProfile.step cfg w pd g s).err.isSome)) := by
  by_cases he : s.err.isSome
  · rw [win_step_sticky cfg w pd g s he]
    exact ⟨fun pr2 h2 => Or.inl h2, fun h => h⟩
  · by_cases hm : (s.repo.metadata (cfg.profile_name ++ "/" ++ g)).isSome
    · rw [win_step_skip cfg w pd g s he hm]
      exact ⟨fun pr2 h2 => Or.inl h2, fun h => h⟩
    · rw [win_step_process cfg w pd g s he hm]
      by_cases hraw : (s.repo.metadata ("src/pdb/" ++ g ++ ".pdb")).isSome
      · rw [if_pos hraw]
        obtain ⟨hw, herr, hch⟩ :=
          ParsePDB_bad cfg w g pd { s with changed := true } hbad
        constructor
        · intro pr2 h2
          rw [hw] at h2
          exact Or.inl h2
        · intro _ _
          exact herr
      · rw [if_neg hraw, FetchPDB_fields]
        obtain ⟨hw, herr, hch⟩ := ParsePDB_bad cfg w g pd
          { s with repo := s.repo.storeData ("src/pdb/" ++ g ++ ".pdb") (w.fetch_pdb pd g),
                   writes := s.writes ++ [("src/pdb/" ++ g ++ ".pdb", w.fetch_pdb pd g)],
                   fetches := s.fetches ++ [g], changed := true } hbad
        constructor
        · intro pr2 h2
          rw [hw] at h2
          simp only [List.mem_append, List.mem_singleton] at h2
          rcases h2 with h2 | h2
          · exact Or.inl h2
          · exact Or.inr ⟨g, by rw [h2]⟩
        · intro _ _
          exact herr

set_option maxHeartbeats 1600000 in
theorem win_loop_bad (cfg : WindowsGUIDProfileArgs) (w : World) (r : Repo)
    (hbad : ∃ pr ∈ cfg.transforms, pr.1 ≠ "merge") :
    (∀ pr2 ∈ (WindowsGUIDProfile.loop cfg w r).writes,
        ∃ g2, pr2.1 = "src/pdb/" ++ g2 ++ ".pdb")
    ∧ ((WindowsGUIDProfile.loop cfg w r).changed = true →
        (WindowsGUIDProfile.loop cfg w r).err.isSome) := by
  have hguid : ∀ (pd : String) (gs : List String) (t : BOut),
      ((∀ pr2 ∈ t.writes, ∃ g2, pr2.1 = "src/pdb/" ++ g2 ++ ".pdb")
        ∧ (t.changed = true → t.err.isSome)) →
      ((∀ pr2 ∈ (WindowsGUIDProfile.guidLoop cfg w pd gs t).writes,
          ∃ g2, pr2.1 = "src/pdb/" ++ g2 ++ ".pdb")
        ∧ ((WindowsGUIDProfile.guidLoop cfg w pd gs t).changed = true →
            (WindowsGUIDProfile.guidLoop cfg w pd gs t).err.isSome)) := by
    intro pd gs t ht
    refine foldSteps_inv (WindowsGUIDProfile.step cfg w pd)
      (fun t2 => (∀ pr2 ∈ t2.writes, ∃ g2, pr2.1 = "src/pdb/" ++ g2 ++ ".pdb")
        ∧ (t2.changed = true → t2.err.isSome)) ?_ gs t ht
    intro g2 t2 ht2
    obtain ⟨hw, hce⟩ := win_step_bad cfg w pd g2 t2 hbad
    exact ⟨fun pr2 h2 => (hw pr2 h2).elim (ht2.1 pr2) id, hce ht2.2⟩
  unfold WindowsGUIDProfile.loop
  cases hv : r.getData cfg.guids with
  | none =>
      simp only [hv]
      constructor
      · intro pr2 h2
        simp [BOut.start, BOut.read, BOut.fail] at h2
      · intro _
        simp [BOut.start, BOut.read, BOut.fail]
  | some v =>
      cases hgf : decodeGuidFile v with
      | none =>
          simp only [hv, hgf]
          constructor
          · intro pr2 h2
            simp [BOut.start, BOut.read, BOut.fail] at h2
          · intro _
            simp [BOut.start, BOut.read, BOut.fail]
      | some gf =>
          simp only [hv, hgf]
          refine foldSteps_inv
            (fun pr t => WindowsGUIDProfile.guidLoop cfg w pr.1 pr.2 t)
            (fun t => (∀ pr2 ∈ t.writes, ∃ g2, pr2.1 = "src/pdb/" ++ g2 ++ ".pdb")
              ∧ (t.changed = true → t.err.isSome))
            (fun pr t ht => hguid pr.1 pr.2 t ht)
            gf ((BOut.start r).read cfg.guids) ⟨?_, ?_⟩
          · intro pr2 h2
            simp [BOut.start, BOut.read] at h2
          · intro h
            simp [BOut.start, BOut.read] at h

/-- A Windows target whose transform spec names a bogus transform. -/
def badCfgA : WindowsGUIDProfileArgs :=
  ⟨"win", "g.json", none, [("bogus", Val.num 1)], none, false⟩

/-- C6 counterexample: in Variant A the raw pdb is fetched and stored
before `TransformProfile` runs, so a Build call aborted by the unknown
transform has already performed one store write (the raw artifact),
refuting "performs no store write in that Build call". -/
theorem C6_counterexample_raw_write_before_abort :
    (WindowsGUIDProfile.Build badCfgA okConvWorld c1RA).err
      = some "Unknown transform bogus"
    ∧ (WindowsGUIDProfile.Build badCfgA okConvWorld c1RA).writes
      = [("src/pdb/G1.pdb", Val.str "raw")] :=
  ⟨rfl, rfl⟩

/-- C6 (amended): a transform spec containing any name other than
`merge` makes `TransformProfile` raise the unknown-transform
RuntimeError and aborts the enclosing `Build` call.  Variants B and C
perform no store write in such a call; Variant A, whose raw fetch
precedes the transform, may already have stored fetched raw artifacts
(`src/pdb/<guid>.pdb`) but stores nothing else. -/
theorem C6_unknown_transform_aborts
    (ts : List (String × Val)) (fields : List (String × Val))
    (hts : ∃ pr ∈ ts, pr.1 ≠ "merge")
    (cfgB : CopyAndTransformArgs) (rB : Repo) (fB : List (String × Val))
    (hbB : ∃ pr ∈ cfgB.transforms, pr.1 ≠ "merge")
    (hBpm : rB.metadata cfgB.profile_name = none)
    (hBd : rB.getData cfgB.source = some (.obj fB))
    (cfgC : OSXProfileArgs) (wC : World) (rC : Repo)
    (hbC : ∃ pr ∈ cfgC.transforms, pr.1 ≠ "merge")
    (cfgA : WindowsGUIDProfileArgs) (wA : World) (rA : Repo)
    (hbA : ∃ pr ∈ cfgA.transforms, pr.1 ≠ "merge")
    (hAch : (WindowsGUIDProfile.loop cfgA wA rA).changed = true) :
    (∃ n, n ≠ "merge" ∧
      TransformProfile ts (.obj fields) = .error ("Unknown transform " ++ n))
    ∧ (∃ n, n ≠ "merge" ∧
      (CopyAndTransform.Build cfgB rB).err = some ("Unknown transform " ++ n))
    ∧ (CopyAndTransform.Build cfgB rB).writes = []
    ∧ (OSXProfile.Build cfgC wC rC).writes = []
    ∧ (WindowsGUIDProfile.Build cfgA wA rA).err.isSome
    ∧ (∀ pr2 ∈ (WindowsGUIDProfile.Build cfgA wA rA).writes,
        ∃ g, pr2.1 = "src/pdb/" ++ g ++ ".pdb") := by
  obtain ⟨hwA, hceA⟩ := win_loop_bad cfgA wA rA hbA
  have herrA : (WindowsGUIDProfile.loop cfgA wA rA).err.isSome := hceA hAch
  have hbuildA : WindowsGUIDProfile.Build cfgA wA rA
      = WindowsGUIDProfile.loop cfgA wA rA :=
    indexTriggerAD_sticky _ _ _ _ _ herrA
  refine ⟨transform_bad_obj ts hts fields,
    copy_build_bad_err cfgB rB fB hbB hBpm hBd,
    copy_build_bad_writes cfgB rB hbB,
    osx_build_bad_writes cfgC wC rC hbC, ?_, ?_⟩
  · rw [hbuildA]
    exact herrA
  · rw [hbuildA]
    exact hwA

/-- Witness for C6 on concrete targets whose transform spec contains the
unrecognized name `bogus`. -/
theorem C6_unknown_transform_aborts_witness :
    (∃ pr ∈ [("bogus", Val.num 1)], pr.1 ≠ "merge")
    ∧ (⟨[("s", ⟨Val.obj [], 0⟩)], 1⟩ : Repo).metadata "p" = none
    ∧ (⟨[("s", ⟨Val.obj [], 0⟩)], 1⟩ : Repo).getData "s" = some (Val.obj [])
    ∧ (WindowsGUIDProfile.loop badCfgA okConvWorld c1RA).changed = true
    ∧ (∃ n, n ≠ "merge" ∧ TransformProfile [("bogus", Val.num 1)] (Val.obj [])
        = .error ("Unknown transform " ++ n))
    ∧ (CopyAndTransform.Build ⟨"p", "s", [("bogus", Val.num 1)]⟩
        ⟨[("s", ⟨Val.obj [], 0⟩)], 1⟩).writes = []
    ∧ (OSXProfile.Build ⟨"OSX", ["osx/x"], [("bogus", Val.num 1)], none, false⟩
        okConvWorld ⟨[("osx/x", ⟨Val.obj [], 0⟩)], 1⟩).writes = []
    ∧ (WindowsGUIDProfile.Build badCfgA okConvWorld c1RA).err.isSome := by
  have h := C6_unknown_transform_aborts
    [("bogus", Val.num 1)] [] (by decide)
    ⟨"p", "s", [("bogus", Val.num 1)]⟩ ⟨[("s", ⟨Val.obj [], 0⟩)], 1⟩ [] (by decide) rfl rfl
    ⟨"OSX", ["osx/x"], [("bogus", Val.num 1)], none, false⟩ okConvWorld
    ⟨[("osx/x", ⟨Val.obj [], 0⟩)], 1⟩ (by decide)
    badCfgA okConvWorld c1RA (by decide) rfl
  exact ⟨by decide, rfl, rfl, rfl, h.1, h.2.2.1, h.2.2.2.1, h.2.2.2.2.1⟩

/-! ## Path disjointness facts for the Windows artifact layout -/

theorem str_data_inj (a b : String) (h : a.data = b.data) : a = b := by
  cases a
  cases b
  exact congrArg String.mk h

theorem str_append_left_cancel (a b c : String) (h : a ++ b = a ++ c) : b = c := by
  apply str_data_inj
  have h2 := congrArg String.data h
  rw [String.data_append, String.data_append] at h2
  exact List.append_cancel_left h2

theorem str_append_right_cancel (a b c : String) (h : a ++ c = b ++ c) : a = b := by
  apply str_data_inj
  have h2 := congrArg String.data h
  rw [String.data_append, String.data_append] at h2
  exact List.append_cancel_right h2

/-- Profile paths under a fixed profile name are injective in the id. -/
theorem profilePath_inj (pn g1 g2 : String)
    (h : pn ++ "/" ++ g1 = pn ++ "/" ++ g2) : g1 = g2 :=
  str_append_left_cancel (pn ++ "/") g1 g2 h

/-- Raw pdb paths are injective in the guid. -/
theorem rawPath_inj (g1 g2 : String)
    (h : "src/pdb/" ++ g1 ++ ".pdb" = "src/pdb/" ++ g2 ++ ".pdb") : g1 = g2 :=
  str_append_left_cancel "src/pdb/" g1 g2
    (str_append_right_cancel ("src/pdb/" ++ g1) ("src/pdb/" ++ g2) ".pdb" h)

theorem slash_split (u : List Char) (x : List Char) :
    ∀ (v y : List Char), '/' ∉ x → '/' ∉ y →
      u ++ '/' :: x = v ++ '/' :: y → u = v ∧ x = y := by
  induction u with
  | nil =>
      intro v y hx hy h
      cases v with
      | nil => simpa using h
      | cons c v2 =>
          rw [List.nil_append, List.cons_append] at h
          injection h with h1 h2
          exfalso
          apply hx
          rw [h2]
          exact List.mem_append_right _ (List.mem_cons_self _ _)
  | cons c u2 ih =>
      intro v y hx hy h
      cases v with
      | nil =>
          rw [List.nil_append, List.cons_append] at h
          injection h with h1 h2
          exfalso
          apply hy
          rw [← h2]
          exact List.mem_append_right _ (List.mem_cons_self _ _)
      | cons c2 v2 =>
          rw [List.cons_append, List.cons_append] at h
          injection h with h1 h2
          obtain ⟨hu, hx2⟩ := ih v2 y hx hy h2
          exact ⟨by rw [h1, hu], hx2⟩

/-- A profile path of a slash-free id under a profile name other than
`src/pdb` is never a raw pdb path of a slash-free guid. -/
theorem profilePath_ne_rawPath (pn g1 g2 : String)
    (hpn : pn ≠ "src/pdb") (h1 : '/' ∉ g1.data) (h2 : '/' ∉ g2.data) :
    pn ++ "/" ++ g1 ≠ "src/pdb/" ++ g2 ++ ".pdb" := by
  intro h
  have hd := congrArg String.data h
  rw [String.data_append, String.data_append, String.data_append,
      String.data_append] at hd
  have hd2 : pn.data ++ '/' :: g1.data
      = "src/pdb".data ++ '/' :: (g2.data ++ ['.', 'p', 'd', 'b']) := by
    rw [show ("/" : String).data = ['/'] from rfl] at hd
    rw [show ("src/pdb/" : String).data = "src/pdb".data ++ ['/'] from rfl] at hd
    rw [show (".pdb" : String).data = ['.', 'p', 'd', 'b'] from rfl] at hd
    simpa [List.append_assoc] using hd
  have hy : '/' ∉ g2.data ++ ['.', 'p', 'd', 'b'] := by
    intro hmem
    rcases List.mem_append.mp hmem with hmem | hmem
    · exact h2 hmem
    · simp at hmem
  obtain ⟨hu, _⟩ := slash_split pn.data g1.data "src/pdb".data
    (g2.data ++ ['.', 'p', 'd', 'b']) h1 hy hd2
  exact hpn (str_data_inj _ _ hu)

/-! ## The resumability invariants of Variant A -/

/-- Invariant: the converted profile for `guid` is still absent, its raw
artifact holds `rawData`, and no fetch for `guid` happened (proof-only
invariant used for C8). -/
def winPending (cfg : WindowsGUIDProfileArgs) (guid : String) (rawData : Val)
    (t : BOut) : Prop :=
  t.err = none ∧ guid ∉ t.fetches
  ∧ t.repo.metadata (cfg.profile_name ++ "/" ++ guid) = none
  ∧ t.repo.getData ("src/pdb/" ++ guid ++ ".pdb") = some rawData

/-- Invariant: `guid` has been converted from `rawData` (its pdb
filename being `pdbName`) and stored, without any fetch (proof-only
invariant used for C8). -/
def winGood (cfg : WindowsGUIDProfileArgs) (w : World) (pdbName guid : String)
    (rawData : Val) (t : BOut) : Prop :=
  t.err = none ∧ guid ∉ t.fetches ∧ guid ∈ t.converts
  ∧ (∃ d2, TransformProfile cfg.transforms
      (w.parse_pdb (cfg.profile_class.getD (pyCapitalize pdbName)) rawData) = .ok d2
      ∧ (cfg.profile_name ++ "/" ++ guid, d2) ∈ t.writes)
  ∧ ((t.repo.metadata (cfg.profile_name ++ "/" ++ guid)).isSome)

theorem win_step_good (cfg : WindowsGUIDProfileArgs) (w : World)
    (pdbName guid : String) (rawData : Val) (pd2 g2 : String) (t : BOut)
    (hsucc : ∀ p : Val, ∃ q, TransformProfile cfg.transforms p = .ok q)
    (hg : winGood cfg w pdbName guid rawData t) :
    winGood cfg w pdbName guid rawData (WindowsGUIDProfile.step cfg w pd2 g2 t) := by
  obtain ⟨herr, hfet, hconv, ⟨d2, htr, hwr⟩, hpres⟩ := hg
  have he : ¬ t.err.isSome := by simp [herr]
  by_cases hgg : g2 = guid
  · subst hgg
    rw [win_step_skip cfg w pd2 g2 t he hpres]
    exact ⟨herr, hfet, hconv, ⟨d2, htr, hwr⟩, hpres⟩
  · by_cases hm : (t.repo.metadata (cfg.profile_name ++ "/" ++ g2)).isSome
    · rw [win_step_skip cfg w pd2 g2 t he hm]
      exact ⟨herr, hfet, hconv, ⟨d2, htr, hwr⟩, hpres⟩
    · rw [win_step_process cfg w pd2 g2 t he hm]
      by_cases hraw : (t.repo.metadata ("src/pdb/" ++ g2 ++ ".pdb")).isSome
      · rw [if_pos hraw]
        obtain ⟨data, hdata⟩ : ∃ data,
            t.repo.getData ("src/pdb/" ++ g2 ++ ".pdb") = some data :=
          Option.isSome_iff_exists.mp ((metadata_isSome_iff_getData t.repo _).mp hraw)
        obtain ⟨q2, hq2⟩ :=
          hsucc (w.parse_pdb (cfg.profile_class.getD (pyCapitalize pd2)) data)
        rw [ParsePDB_ok cfg w g2 pd2 { t with changed := true } data q2 hdata hq2]
        exact ⟨herr, hfet, List.mem_append_left _ hconv,
          ⟨d2, htr, List.mem_append_left _ hwr⟩,
          metadata_isSome_storeData _ _ _ _ hpres⟩
      · rw [if_neg hraw, FetchPDB_fields]
        obtain ⟨q2, hq2⟩ :=
          hsucc (w.parse_pdb (cfg.profile_class.getD (pyCapitalize pd2))
            (w.fetch_pdb pd2 g2))
        rw [ParsePDB_ok cfg w g2 pd2 _ (w.fetch_pdb pd2 g2) q2
          (by rw [getData_storeData]; exact if_pos rfl) hq2]
        refine ⟨herr, ?_, List.mem_append_left _ hconv,
          ⟨d2, htr, List.mem_append_left _ (List.mem_append_left _ hwr)⟩,
          metadata_isSome_storeData _ _ _ _ (metadata_isSome_storeData _ _ _ _ hpres)⟩
        intro hmem
        rcases List.mem_append.mp hmem with h3 | h3
        · exact hfet h3
        · rw [List.mem_singleton] at h3
          exact hgg h3.symm

theorem win_step_pending (cfg : WindowsGUIDProfileArgs) (w : World)
    (pdbName guid : String) (rawData : Val) (pd2 g2 : String) (t : BOut)
    (hsucc : ∀ p : Val, ∃ q, TransformProfile cfg.transforms p = .ok q)
    (hpn : cfg.profile_name ≠ "src/pdb")
    (hgslash : '/' ∉ guid.data) (hg2slash : '/' ∉ g2.data)
    (hp : winPending cfg guid rawData t) :
    ((g2 = guid → pd2 = pdbName →
        winGood cfg w pdbName guid rawData (WindowsGUIDProfile.step cfg w pd2 g2 t))
      ∧ (g2 ≠ guid →
        winPending cfg guid rawData (WindowsGUIDProfile.step cfg w pd2 g2 t))) := by
  obtain ⟨herr, hfet, habs, hdata⟩ := hp
  have he : ¬ t.err.isSome := by simp [herr]
  constructor
  · intro hgg hpd
    subst hgg
    subst hpd
    have hm : ¬ (t.repo.metadata (cfg.profile_name ++ "/" ++ g2)).isSome := by
      rw [habs]
      simp
    rw [win_step_process cfg w pd2 g2 t he hm]
    have hraw : (t.repo.metadata ("src/pdb/" ++ g2 ++ ".pdb")).isSome := by
      rw [metadata_isSome_iff_getData, hdata]
      rfl
    rw [if_pos hraw]
    obtain ⟨q2, hq2⟩ :=
      hsucc (w.parse_pdb (cfg.profile_class.getD (pyCapitalize pd2)) rawData)
    rw [ParsePDB_ok cfg w g2 pd2 { t with changed := true } rawData q2 hdata hq2]
    refine ⟨herr, hfet, List.mem_append_right _ (List.mem_singleton.mpr rfl),
      ⟨q2, hq2, List.mem_append_right _ (List.mem_singleton.mpr rfl)⟩, ?_⟩
    rw [metadata_storeData, if_pos rfl]
    rfl
  · intro hgg
    by_cases hm : (t.repo.metadata (cfg.profile_name ++ "/" ++ g2)).isSome
    · rw [win_step_skip cfg w pd2 g2 t he hm]
      exact ⟨herr, hfet, habs, hdata⟩
    · rw [win_step_process cfg w pd2 g2 t he hm]
      have hne1 : cfg.profile_name ++ "/" ++ guid ≠ cfg.profile_name ++ "/" ++ g2 :=
        fun h => (Ne.symm hgg) (profilePath_inj _ _ _ h)
      have hne2 : "src/pdb/" ++ guid ++ ".pdb" ≠ cfg.profile_name ++ "/" ++ g2 :=
        fun h => profilePath_ne_rawPath cfg.profile_name g2 guid hpn hg2slash hgslash h.symm
      have hne3 : cfg.profile_name ++ "/" ++ guid ≠ "src/pdb/" ++ g2 ++ ".pdb" :=
        profilePath_ne_rawPath cfg.profile_name guid g2 hpn hgslash hg2slash
      have hne4 : "src/pdb/" ++ guid ++ ".pdb" ≠ "src/pdb/" ++ g2 ++ ".pdb" :=
        fun h => (Ne.symm hgg) (rawPath_inj _ _ h)
      by_cases hraw : (t.repo.metadata ("src/pdb/" ++ g2 ++ ".pdb")).isSome
      · obtain ⟨data, hdata2⟩ : ∃ data,
            t.repo.getData ("src/pdb/" ++ g2 ++ ".pdb") = some data :=
          Option.isSome_iff_exists.mp ((metadata_isSome_iff_getData t.repo _).mp hraw)
        obtain ⟨q2, hq2⟩ :=
          hsucc (w.parse_pdb (cfg.profile_class.getD (pyCapitalize pd2)) data)
        rw [if_pos hraw,
          ParsePDB_ok cfg w g2 pd2 { t with changed := true } data q2 hdata2 hq2]
        refine ⟨herr, hfet, ?_, ?_⟩
        · show (t.repo.storeData (cfg.profile_name ++ "/" ++ g2) q2).metadata
            (cfg.profile_name ++ "/" ++ guid) = none
          rw [metadata_storeData, if_neg hne1, habs]
        · show (t.repo.storeData (cfg.profile_name ++ "/" ++ g2) q2).getData
            ("src/pdb/" ++ guid ++ ".pdb") = some rawData
          rw [getData_storeData, if_neg hne2, hdata]
      · obtain ⟨q2, hq2⟩ :=
          hsucc (w.parse_pdb (cfg.profile_class.getD (pyCapitalize pd2))
            (w.fetch_pdb pd2 g2))
        rw [if_neg hraw, FetchPDB_fields,
          ParsePDB_ok cfg w g2 pd2 _ (w.fetch_pdb pd2 g2) q2
            (by rw [getData_storeData]; exact if_pos rfl) hq2]
        refine ⟨herr, ?_, ?_, ?_⟩
        · intro hmem
          rcases List.mem_append.mp hmem with h3 | h3
          · exact hfet h3
          · rw [List.mem_singleton] at h3
            exact hgg h3.symm
        · show ((t.repo.storeData ("src/pdb/" ++ g2 ++ ".pdb") (w.fetch_pdb pd2 g2)).storeData
              (cfg.profile_name ++ "/" ++ g2) q2).metadata
            (cfg.profile_name ++ "/" ++ guid) = none
          rw [metadata_storeData, if_neg hne1, metadata_storeData,
            if_neg hne3, habs]
        · show ((t.repo.storeData ("src/pdb/" ++ g2 ++ ".pdb") (w.fetch_pdb pd2 g2)).storeData
              (cfg.profile_name ++ "/" ++ g2) q2).getData
            ("src/pdb/" ++ guid ++ ".pdb") = some rawData
          rw [getData_storeData, if_neg hne2, getData_storeData, if_neg hne4, hdata]

theorem win_guidLoop_good (cfg : WindowsGUIDProfileArgs) (w : World)
    (pdbName guid : String) (rawData : Val) (pd2 : String) (gs : List String)
    (t : BOut)
    (hsucc : ∀ p : Val, ∃ q, TransformProfile cfg.transforms p = .ok q)
    (hg : winGood cfg w pdbName guid rawData t) :
    winGood cfg w pdbName guid rawData (WindowsGUIDProfile.guidLoop cfg w pd2 gs t) :=
  foldSteps_inv _ (winGood cfg w pdbName guid rawData)
    (fun g2 t2 ht2 => win_step_good cfg w pdbName guid rawData pd2 g2 t2 hsucc ht2)
    gs t hg

theorem win_guidLoop_pending (cfg : WindowsGUIDProfileArgs) (w : World)
    (pdbName guid : String) (rawData : Val) (pd2 : String) (gs : List String)
    (hsucc : ∀ p : Val, ∃ q, TransformProfile cfg.transforms p = .ok q)
    (hpn : cfg.profile_name ≠ "src/pdb")
    (hgslash : '/' ∉ guid.data)
    (hgs : ∀ g ∈ gs, '/' ∉ g.data)
    (hpd : guid ∈ gs → pd2 = pdbName) :
    ∀ (t : BOut), winPending cfg guid rawData t →
      ((guid ∈ gs →
          winGood cfg w pdbName guid rawData (WindowsGUIDProfile.guidLoop cfg w pd2 gs t))
        ∧ (guid ∉ gs →
          winPending cfg guid rawData (WindowsGUIDProfile.guidLoop cfg w pd2 gs t))) := by
  induction gs with
  | nil =>
      intro t hp
      exact ⟨fun h => absurd h (List.not_mem_nil _), fun _ => hp⟩
  | cons g gs2 ih =>
      intro t hp
      by_cases hgg : g = guid
      · have hmemg : guid ∈ g :: gs2 := List.mem_cons.mpr (Or.inl hgg.symm)
        have hpd2 : pd2 = pdbName := hpd hmemg
        have hgood : winGood cfg w pdbName guid rawData
            (WindowsGUIDProfile.step cfg w pd2 g t) :=
          (win_step_pending cfg w pdbName guid rawData pd2 g t hsucc hpn hgslash
            (hgs g (List.mem_cons_self _ _)) hp).1 hgg hpd2
        constructor
        · intro _
          exact win_guidLoop_good cfg w pdbName guid rawData pd2 gs2 _ hsucc hgood
        · intro hh
          exact absurd hmemg hh
      · have hpend : winPending cfg guid rawData
            (WindowsGUIDProfile.step cfg w pd2 g t) :=
          (win_step_pending cfg w pdbName guid rawData pd2 g t hsucc hpn hgslash
            (hgs g (List.mem_cons_self _ _)) hp).2 hgg
        have ih2 := ih (fun g2 hg2 => hgs g2 (List.mem_cons_of_mem _ hg2))
          (fun hin => hpd (List.mem_cons_of_mem _ hin))
          (WindowsGUIDProfile.step cfg w pd2 g t) hpend
        constructor
        · intro hin
          rcases List.mem_cons.mp hin with h2 | h2
          · exact absurd h2.symm hgg
          · exact ih2.1 h2
        · intro hnin
          exact ih2.2 (fun h2 => hnin (List.mem_cons_of_mem _ h2))

theorem win_pairLoop_resume (cfg : WindowsGUIDProfileArgs) (w : World)
    (pdbName guid : String) (rawData : Val) (gf : List (String × List String))
    (hsucc : ∀ p : Val, ∃ q, TransformProfile cfg.transforms p = .ok q)
    (hpn : cfg.profile_name ≠ "src/pdb")
    (hgslash : '/' ∉ guid.data)
    (hall : ∀ pr ∈ gf, ∀ g ∈ pr.2, '/' ∉ g.data)
    (hother : ∀ pr ∈ gf, guid ∈ pr.2 → pr.1 = pdbName) :
    ∀ (t : BOut), winPending cfg guid rawData t →
      (∃ pr ∈ gf, guid ∈ pr.2) →
      winGood cfg w pdbName guid rawData (WindowsGUIDProfile.pairLoop cfg w gf t) := by
  induction gf with
  | nil =>
      intro t _ hmem
      rcases hmem with ⟨pr, hpr, _⟩
      cases hpr
  | cons pr rest ih =>
      intro t hp hmem
      by_cases hin : guid ∈ pr.2
      · have hpd : guid ∈ pr.2 → pr.1 = pdbName :=
          fun _ => hother pr (List.mem_cons_self _ _) hin
        have hgood : winGood cfg w pdbName guid rawData
            (WindowsGUIDProfile.guidLoop cfg w pr.1 pr.2 t) :=
          (win_guidLoop_pending cfg w pdbName guid rawData pr.1 pr.2 hsucc hpn hgslash
            (hall pr (List.mem_cons_self _ _)) hpd t hp).1 hin
        exact foldSteps_inv _ (winGood cfg w pdbName guid rawData)
          (fun pr2 t2 ht2 =>
            win_guidLoop_good cfg w pdbName guid rawData pr2.1 pr2.2 t2 hsucc ht2)
          rest _ hgood
      · have hpend : winPending cfg guid rawData
            (WindowsGUIDProfile.guidLoop cfg w pr.1 pr.2 t) :=
          (win_guidLoop_pending cfg w pdbName guid rawData pr.1 pr.2 hsucc hpn hgslash
            (hall pr (List.mem_cons_self _ _))
            (fun hin2 => absurd hin2 hin) t hp).2 hin
        have hmem2 : ∃ pr2 ∈ rest, guid ∈ pr2.2 := by
          rcases hmem with ⟨pr2, hpr2, hin2⟩
          rcases List.mem_cons.mp hpr2 with h2 | h2
          · exact absurd (h2 ▸ hin2) hin
          · exact ⟨pr2, h2, hin2⟩
        exact ih (fun pr2 h2 g h3 => hall pr2 (List.mem_cons_of_mem _ h2) g h3)
          (fun pr2 h2 => hother pr2 (List.mem_cons_of_mem _ h2)) _ hpend hmem2

theorem indexTriggerAD_fields (pn : String) (idx : Option String) (force : Bool)
    (w : World) (s : BOut) :
    (indexTriggerAD pn idx force w s).fetches = s.fetches
    ∧ (indexTriggerAD pn idx force w s).converts = s.converts
    ∧ ∃ t, (indexTriggerAD pn idx force w s).writes = s.writes ++ t := by
  unfold indexTriggerAD
  split
  · exact ⟨rfl, rfl, [], by simp⟩
  · split
    · obtain ⟨h1, h2, _, h4⟩ := BuildIndex_fetches_converts pn idx w s
      exact ⟨h1, h2, h4⟩
    · exact ⟨rfl, rfl, [], by simp⟩

/-- C8: resumability of Variant A.  If the raw artifact
`src/pdb/<guid>.pdb` already exists (holding `rawData`) but the
converted profile `<profile_name>/<guid>` does not, then `Build` makes
no fetcher call for that guid, does run the converter (`parse_pdb`) on
it, and stores the transformed conversion result at
`<profile_name>/<guid>`.  The hypotheses: the transform spec succeeds on
every document, the profile name is not `src/pdb` and the guids carry no
slash (so distinct artifacts have distinct paths), the guid file decodes
to `gf`, the guid appears under pdb filename `pdbName` and under no
other. -/
theorem C8_resumability
    (cfg : WindowsGUIDProfileArgs) (w : World) (r : Repo)
    (v : Val) (gf : List (String × List String)) (pdbName guid : String)
    (rawData : Val)
    (hsucc : ∀ p : Val, ∃ q, TransformProfile cfg.transforms p = .ok q)
    (hpn : cfg.profile_name ≠ "src/pdb")
    (hgslash : '/' ∉ guid.data)
    (hv : r.getData cfg.guids = some v)
    (hgf : decodeGuidFile v = some gf)
    (hall : ∀ pr ∈ gf, ∀ g ∈ pr.2, '/' ∉ g.data)
    (hother : ∀ pr ∈ gf, guid ∈ pr.2 → pr.1 = pdbName)
    (hmem : ∃ pr ∈ gf, pr.1 = pdbName ∧ guid ∈ pr.2)
    (hraw : r.getData ("src/pdb/" ++ guid ++ ".pdb") = some rawData)
    (habs : r.metadata (cfg.profile_name ++ "/" ++ guid) = none) :
    guid ∉ (WindowsGUIDProfile.Build cfg w r).fetches
    ∧ guid ∈ (WindowsGUIDProfile.Build cfg w r).converts
    ∧ ∃ d2, TransformProfile cfg.transforms
        (w.parse_pdb (cfg.profile_class.getD (pyCapitalize pdbName)) rawData) = .ok d2
        ∧ (cfg.profile_name ++ "/" ++ guid, d2)
            ∈ (WindowsGUIDProfile.Build cfg w r).writes := by
  have hp0 : winPending cfg guid rawData ((BOut.start r).read cfg.guids) :=
    ⟨rfl, List.not_mem_nil _, habs, hraw⟩
  have hmem2 : ∃ pr ∈ gf, guid ∈ pr.2 := by
    rcases hmem with ⟨pr, h1, _, h3⟩
    exact ⟨pr, h1, h3⟩
  have hgood := win_pairLoop_resume cfg w pdbName guid rawData gf hsucc hpn hgslash
    hall hother _ hp0 hmem2
  have hloopeq : WindowsGUIDProfile.loop cfg w r
      = WindowsGUIDProfile.pairLoop cfg w gf ((BOut.start r).read cfg.guids) := by
    unfold WindowsGUIDProfile.loop
    simp only [hv, hgf]
  obtain ⟨herr, hfet, hconv, ⟨d2, htr, hwr⟩, hpres⟩ := hgood
  obtain ⟨hf2, hc2, t2, hw2⟩ := indexTriggerAD_fields cfg.profile_name cfg.index
    cfg.force_build_index w (WindowsGUIDProfile.loop cfg w r)
  refine ⟨?_, ?_, d2, htr, ?_⟩
  · show guid ∉ (indexTriggerAD cfg.profile_name cfg.index cfg.force_build_index w
      (WindowsGUIDProfile.loop cfg w r)).fetches
    rw [hf2, hloopeq]
    exact hfet
  · show guid ∈ (indexTriggerAD cfg.profile_name cfg.index cfg.force_build_index w
      (WindowsGUIDProfile.loop cfg w r)).converts
    rw [hc2, hloopeq]
    exact hconv
  · show (cfg.profile_name ++ "/" ++ guid, d2)
      ∈ (indexTriggerAD cfg.profile_name cfg.index cfg.force_build_index w
        (WindowsGUIDProfile.loop cfg w r)).writes
    rw [hw2, hloopeq]
    exact List.mem_append_left _ hwr

/-- A repository where the raw pdb for `G1` is already fetched but the
converted profile `win/G1` is absent. -/
def c8Repo : Repo :=
  ⟨[("g.json", ⟨Val.obj [("k.pdb", Val.list [Val.str "G1"])], 0⟩),
    ("src/pdb/G1.pdb", ⟨Val.str "rawdata", 1⟩)], 2⟩

/-- Witness for C8 on a one-guid repository with the raw artifact
already present. -/
theorem C8_resumability_witness :
    (∀ p : Val, ∃ q, TransformProfile (c1CfgA.transforms) p = .ok q)
    ∧ c1CfgA.profile_name ≠ "src/pdb"
    ∧ '/' ∉ ("G1" : String).data
    ∧ c8Repo.getData c1CfgA.guids
      = some (Val.obj [("k.pdb", Val.list [Val.str "G1"])])
    ∧ decodeGuidFile (Val.obj [("k.pdb", Val.list [Val.str "G1"])])
      = some [("k.pdb", ["G1"])]
    ∧ c8Repo.getData ("src/pdb/" ++ "G1" ++ ".pdb") = some (Val.str "rawdata")
    ∧ c8Repo.metadata (c1CfgA.profile_name ++ "/" ++ "G1") = none
    ∧ "G1" ∉ (WindowsGUIDProfile.Build c1CfgA okConvWorld c8Repo).fetches
    ∧ "G1" ∈ (WindowsGUIDProfile.Build c1CfgA okConvWorld c8Repo).converts
    ∧ ∃ d2, TransformProfile c1CfgA.transforms
        (okConvWorld.parse_pdb (c1CfgA.profile_class.getD (pyCapitalize "k.pdb"))
          (Val.str "rawdata")) = .ok d2
        ∧ (c1CfgA.profile_name ++ "/" ++ "G1", d2)
            ∈ (WindowsGUIDProfile.Build c1CfgA okConvWorld c8Repo).writes := by
  have h := C8_resumability c1CfgA okConvWorld c8Repo
    (Val.obj [("k.pdb", Val.list [Val.str "G1"])]) [("k.pdb", ["G1"])]
    "k.pdb" "G1" (Val.str "rawdata")
    (fun p => ⟨p, rfl⟩) (by decide) (by decide) rfl rfl
    (by decide) (by decide)
    ⟨("k.pdb", ["G1"]), by decide, rfl, by decide⟩ rfl rfl
  exact ⟨fun p => ⟨p, rfl⟩, by decide, by decide, rfl, rfl, rfl, rfl,
    h.1, h.2.1, h.2.2⟩
